import Mathlib

/-!
# Floating aquatic monitor: energy model, conveyor and detector cursors

A shallow embedding of `src/aquatic_monitor.cpp`.

Modelling conventions.

* C++ `float` is modelled by `ℚ` with exact arithmetic: rounding, infinities and NaN are
  outside the model.  Float literals are read as the decimal they are written as
  (`0.7f` is `7/10`).
* `time_t` is modelled by `Int`; every read of the wall clock is an explicit argument.
* `size_t` cursors are modelled by `Nat`.  A cursor is only ever incremented after it was used
  as an in-bounds index, so `cursor + 1` cannot wrap around.
* `vector<T>` is modelled by `List T`; `v[i]` is only defined in bounds, hence operations that
  index a vector return `Option`.
* Mutexes are not modelled: every method is modelled as one atomic step, and a call of
  `stop()` from the other thread is placed between two passes of the loop.
* The classes below `FloatingAquaticMonitor` do not record their console output.  The
  controller records the console stream as a list of events, one per `logData` call and one
  per line printed by `processWaste`; the time stamp `logData` puts in front of a line and
  the output on `cerr` are not recorded.
* What the controller reads from outside (clock, local hour, the value of `sin`, `rand()`,
  `cv::imread`) is an explicit input of each pass.  Exceptions are not modelled.
-/

namespace AquaticMonitor

/-! ## Numeric helper -/

/-- The C++ `std::min(a, b)`: `(b < a) ? b : a`. -/
def stdMin (a b : ℚ) : ℚ := if b < a then b else a

/-! ## Records (source lines 29-59) -/

/-- The struct `EnvironmentalData`. -/
structure EnvironmentalData where
  temperature : ℚ
  turbidity : ℚ
  pH : ℚ
  salinity : ℚ
  timestamp : Int
  deriving DecidableEq

/-- The struct `DetectionResult`. -/
structure DetectionResult where
  label : String
  confidence : ℚ
  size : ℚ
  activity : String
  timestamp : Int
  deriving DecidableEq

/-! ## SolarPanel (source lines 61-78) -/

/-- The private fields of class `SolarPanel`. -/
structure SolarPanel where
  efficiency : ℚ
  area : ℚ
  currentOutput : ℚ
  isDaytime : Bool
  deriving DecidableEq

namespace SolarPanel

/-- The constructor `SolarPanel(eff, a)`: output 0, daytime flag set. -/
def construct (eff a : ℚ) : SolarPanel :=
  { efficiency := eff, area := a, currentOutput := 0, isDaytime := true }

/-- The method `update`: `currentOutput = isDaytime ? sunlightIntensity * area * efficiency : 0`. -/
def update (p : SolarPanel) (sunlightIntensity : ℚ) : SolarPanel :=
  { p with currentOutput :=
      if p.isDaytime then sunlightIntensity * p.area * p.efficiency else 0 }

/-- The method `getCurrentOutput`. -/
def getCurrentOutput (p : SolarPanel) : ℚ := p.currentOutput

/-- The method `setDaytime`: overwrites the flag only. -/
def setDaytime (p : SolarPanel) (daytime : Bool) : SolarPanel :=
  { p with isDaytime := daytime }

/-- The method `getIsDaytime`. -/
def getIsDaytime (p : SolarPanel) : Bool := p.isDaytime

end SolarPanel

/-- A call of one of the two mutating methods of `SolarPanel`. -/
inductive SolarCall where
  | update (sunlightIntensity : ℚ)
  | setDaytime (daytime : Bool)
  deriving DecidableEq

/-- Effect of one mutating call on a panel. -/
def SolarCall.apply (p : SolarPanel) : SolarCall → SolarPanel
  | SolarCall.update x => p.update x
  | SolarCall.setDaytime b => p.setDaytime b

/-- Whether a call is an `update` call. -/
def SolarCall.isUpdate : SolarCall → Bool
  | SolarCall.update _ => true
  | SolarCall.setDaytime _ => false

/-- Effect of a sequence of mutating calls, executed left to right. -/
def SolarPanel.runCalls (p : SolarPanel) (calls : List SolarCall) : SolarPanel :=
  calls.foldl SolarCall.apply p

/-! ## Battery (source lines 80-104) -/

/-- The private fields of class `Battery`. -/
structure Battery where
  capacity : ℚ
  currentCharge : ℚ
  maxChargeRate : ℚ
  deriving DecidableEq

namespace Battery

/-- The constructor `Battery(cap, maxRate)`: the charge starts at `cap * 0.7f`. -/
def construct (cap maxRate : ℚ) : Battery :=
  { capacity := cap, currentCharge := cap * (7 / 10), maxChargeRate := maxRate }

/-- The method `charge`:
`energy = min(power, maxChargeRate) * hours; currentCharge = min(capacity, currentCharge + energy)`. -/
def charge (b : Battery) (power hours : ℚ) : Battery :=
  let energy := stdMin power b.maxChargeRate * hours
  { b with currentCharge := stdMin b.capacity (b.currentCharge + energy) }

/-- The method `discharge`: returns the success flag together with the battery afterwards. -/
def discharge (b : Battery) (power hours : ℚ) : Bool × Battery :=
  let energyNeeded := power * hours
  if energyNeeded ≤ b.currentCharge then
    (true, { b with currentCharge := b.currentCharge - energyNeeded })
  else
    (false, b)

/-- The method `getChargePercentage`: `(currentCharge / capacity) * 100.0f`. -/
def getChargePercentage (b : Battery) : ℚ := b.currentCharge / b.capacity * 100

end Battery

/-- A call of one of the two mutating methods of `Battery`. -/
inductive BatteryCall where
  | charge (power hours : ℚ)
  | discharge (power hours : ℚ)
  deriving DecidableEq

/-- Effect of one mutating call on a battery (the flag of `discharge` is dropped). -/
def BatteryCall.apply (b : Battery) : BatteryCall → Battery
  | BatteryCall.charge power hours => b.charge power hours
  | BatteryCall.discharge power hours => (b.discharge power hours).2

/-- Effect of a sequence of mutating calls, executed left to right. -/
def Battery.runCalls (b : Battery) (calls : List BatteryCall) : Battery :=
  calls.foldl BatteryCall.apply b

/-- The energy a call moves: `min(power, maxChargeRate) * hours` for `charge`,
`power * hours` for `discharge`. -/
def BatteryCall.energy (maxChargeRate : ℚ) : BatteryCall → ℚ
  | BatteryCall.charge power hours => stdMin power maxChargeRate * hours
  | BatteryCall.discharge power hours => power * hours

/-! ## ConveyorBelt (source lines 106-134) -/

/-- The private fields of class `ConveyorBelt` (the mutex is not modelled). -/
structure ConveyorBelt where
  isRunning : Bool
  speed : ℚ
  powerUsage : ℚ
  deriving DecidableEq

namespace ConveyorBelt

/-- The constructor `ConveyorBelt()`: idle, speed `0.5f`, power usage `150.0f`. -/
def construct : ConveyorBelt :=
  { isRunning := false, speed := 1 / 2, powerUsage := 150 }

/-- The method `activate`. -/
def activate (c : ConveyorBelt) : ConveyorBelt := { c with isRunning := true }

/-- The method `stop`. -/
def stop (c : ConveyorBelt) : ConveyorBelt := { c with isRunning := false }

/-- The method `isActive` (a `const` read). -/
def isActive (c : ConveyorBelt) : Bool := c.isRunning

/-- The method `getPowerUsage` (a `const` read): `isRunning ? powerUsage : 0`. -/
def getPowerUsage (c : ConveyorBelt) : ℚ := if c.isRunning then c.powerUsage else 0

/-- The method `processWaste` when no other thread calls `stop` during the call:
`if (!isRunning) isRunning = true;`, then the dwell loop, which only reads the flag.
The record is only printed. -/
def processWaste (c : ConveyorBelt) (_waste : DetectionResult) : ConveyorBelt :=
  if !c.isRunning then { c with isRunning := true } else c

end ConveyorBelt

/-- A call of one of the mutating methods of `ConveyorBelt`. -/
inductive ConveyorCall where
  | activate
  | stop
  | processWaste (waste : DetectionResult)
  deriving DecidableEq

/-- Effect of one mutating call on a conveyor. -/
def ConveyorCall.apply (c : ConveyorBelt) : ConveyorCall → ConveyorBelt
  | ConveyorCall.activate => c.activate
  | ConveyorCall.stop => c.stop
  | ConveyorCall.processWaste waste => c.processWaste waste

/-- Effect of a sequence of mutating calls, executed left to right. -/
def ConveyorBelt.runCalls (c : ConveyorBelt) (calls : List ConveyorCall) : ConveyorBelt :=
  calls.foldl ConveyorCall.apply c

/-! ## AquaticDetector (source lines 158-432) -/

/-- The struct `AquaticDetector::WasteData`. -/
structure WasteData where
  waterBodyType : String
  locationType : String
  wasteType : String
  wasteSubtype : String
  imageFileName : String
  confidence : ℚ
  size : ℚ
  weight : ℚ
  temperature : ℚ
  turbidity : ℚ
  pH : ℚ
  deriving DecidableEq

/-- The struct `AquaticDetector::MarineData`. -/
structure MarineData where
  waterBodyType : String
  locationType : String
  animalType : String
  animalSpecies : String
  imageFileName : String
  confidence : ℚ
  size : ℚ
  weight : ℚ
  activity : String
  temperature : ℚ
  salinity : ℚ
  pH : ℚ
  deriving DecidableEq

/-- The data fields of class `AquaticDetector` (the mutex is not modelled). -/
structure AquaticDetector where
  wasteDataset : List WasteData
  marineDataset : List MarineData
  currentWasteIndex : Nat
  currentMarineIndex : Nat
  datasetsLoaded : Bool
  deriving DecidableEq

/-- The record `detect` builds from a marine dataset entry (source lines 353-359). -/
def marineDetection (data : MarineData) (now : Int) : DetectionResult :=
  { label := data.animalSpecies, confidence := data.confidence, size := data.size,
    activity := data.activity, timestamp := now }

/-- The record `detect` builds from a waste dataset entry (source lines 366-372). -/
def wasteDetection (data : WasteData) (now : Int) : DetectionResult :=
  { label := data.wasteType ++
      (if data.wasteSubtype.isEmpty then "" else " (" ++ data.wasteSubtype ++ ")"),
    confidence := data.confidence, size := data.size, activity := "", timestamp := now }

namespace AquaticDetector

/-- The constructor, after the two loaders have filled the datasets: both cursors are 0 and
`datasetsLoaded = !wasteDataset.empty() && !marineDataset.empty()`. -/
def construct (waste : List WasteData) (marine : List MarineData) : AquaticDetector :=
  { wasteDataset := waste, marineDataset := marine, currentWasteIndex := 0,
    currentMarineIndex := 0, datasetsLoaded := !waste.isEmpty && !marine.isEmpty }

/-- The marine block of `detect` (source lines 352-363): the marine half of the result and
the detector afterwards; `none` when the cursor indexes outside the dataset. -/
def detectMarine (d : AquaticDetector) (now : Int) :
    Option (List DetectionResult × AquaticDetector) :=
  if d.marineDataset.isEmpty then
    some ([], d)
  else
    match d.marineDataset[d.currentMarineIndex]? with
    | none => none
    | some data =>
      some ([marineDetection data now],
        { d with currentMarineIndex := (d.currentMarineIndex + 1) % d.marineDataset.length })

/-- The waste block of `detect` (source lines 365-376): the waste half of the result and
the detector afterwards; `none` when the cursor indexes outside the dataset. -/
def detectWaste (d : AquaticDetector) (now : Int) :
    Option (List DetectionResult × AquaticDetector) :=
  if d.wasteDataset.isEmpty then
    some ([], d)
  else
    match d.wasteDataset[d.currentWasteIndex]? with
    | none => none
    | some data =>
      some ([wasteDetection data now],
        { d with currentWasteIndex := (d.currentWasteIndex + 1) % d.wasteDataset.length })

/-- The method `detect` (the frame argument is never read): the pair
`(marineDetections, wasteDetections)` and the detector afterwards.  `nowMarine` and
`nowWaste` are the two reads of the system clock. -/
def detect (d : AquaticDetector) (nowMarine nowWaste : Int) :
    Option ((List DetectionResult × List DetectionResult) × AquaticDetector) :=
  match d.detectMarine nowMarine with
  | none => none
  | some (marineDetections, d1) =>
    match d1.detectWaste nowWaste with
    | none => none
    | some (wasteDetections, d2) => some ((marineDetections, wasteDetections), d2)

/-- The detector after `k` successive calls of `detect`; `clock i` gives the two clock reads
of the `i`-th call (calls are numbered from 1). -/
def afterDetects (clock : Nat → Int × Int) (d : AquaticDetector) : Nat → Option AquaticDetector
  | 0 => some d
  | k + 1 =>
    match afterDetects clock d k with
    | none => none
    | some dk =>
      match dk.detect (clock (k + 1)).1 (clock (k + 1)).2 with
      | none => none
      | some (_, dk1) => some dk1

/-- The pair returned by the `k`-th successive call of `detect` (for `k ≥ 1`). -/
def kthDetect (clock : Nat → Int × Int) (d : AquaticDetector) (k : Nat) :
    Option (List DetectionResult × List DetectionResult) :=
  match afterDetects clock d (k - 1) with
  | none => none
  | some dk =>
    match dk.detect (clock k).1 (clock k).2 with
    | none => none
    | some (r, _) => some r

end AquaticDetector

/-- The values returned by the successive `rand()` calls of the fallback branch of
`readEnvironmentalSensors` (source lines 397-400), in the order they are made. -/
structure FallbackDraws where
  temperature : Nat
  turbidity : Nat
  pH : Nat
  salinityFirst : Nat
  salinitySecond : Nat
  deriving DecidableEq

namespace AquaticDetector

/-- The method `readEnvironmentalSensors`: the reading and the detector afterwards; `none`
when a cursor indexes outside its dataset.  `now` is the read of the system clock. -/
def readEnvironmentalSensors (d : AquaticDetector) (now : Int) (draws : FallbackDraws) :
    Option (EnvironmentalData × AquaticDetector) :=
  if !d.wasteDataset.isEmpty && !d.marineDataset.isEmpty then
    match d.wasteDataset[d.currentWasteIndex]? with
    | none => none
    | some wasteData =>
      match d.marineDataset[d.currentMarineIndex]? with
      | none => none
      | some marineData =>
        some ({ temperature := (wasteData.temperature + marineData.temperature) / 2,
                turbidity := wasteData.turbidity,
                pH := (wasteData.pH + marineData.pH) / 2,
                salinity := marineData.salinity,
                timestamp := now }, d)
  else
    some ({ temperature := 20 + ((draws.temperature % 15 : Nat) : ℚ),
            turbidity := ((draws.turbidity % 50 : Nat) : ℚ),
            pH := 13 / 2 + ((draws.pH % 5 : Nat) : ℚ) / 2,
            salinity :=
              if draws.salinityFirst % 3 = 0 then 1 / 2
              else if draws.salinitySecond % 3 = 1 then 15 else 35,
            timestamp := now }, d)

/-- The method `captureFrame`: the returned flag and the detector afterwards; `none` when the
cursor indexes outside the dataset.  `imread file` tells whether `cv::imread` yields a
non-empty image for `file`.  The frame itself is never inspected by the caller. -/
def captureFrame (d : AquaticDetector) (isMarine : Bool) (imread : String → Bool) :
    Option (Bool × AquaticDetector) :=
  if isMarine && !d.marineDataset.isEmpty then
    match d.marineDataset[d.currentMarineIndex]? with
    | none => none
    | some data => some (imread data.imageFileName, d)
  else if !isMarine && !d.wasteDataset.isEmpty then
    match d.wasteDataset[d.currentWasteIndex]? with
    | none => none
    | some data => some (imread data.imageFileName, d)
  else
    some (false, d)

end AquaticDetector

/-! ## FloatingAquaticMonitor (source lines 434-622) -/

/-- The fields printed by the status report (source lines 580-599). -/
structure StatusReport where
  time : Int
  solarOutput : ℚ
  batteryLevel : ℚ
  daytime : Bool
  lastMarine : Option DetectionResult
  lastWaste : Option DetectionResult
  environment : Option EnvironmentalData
  deriving DecidableEq

/-- One line group written to the console.  All but the two conveyor lines are written by
`logData`, which also appends them to the log file. -/
inductive Event where
  /-- Line "Starting marine life and waste monitoring system" -/
  | started
  /-- Line "Environmental Data: ..." -/
  | environmentalData (data : EnvironmentalData)
  /-- Line "WARNING: Critical pH level detected!" -/
  | criticalPH
  /-- Line "WARNING: High turbidity detected!" -/
  | highTurbidity
  /-- Line "Marine Life Detected:" -/
  | marineDetected
  /-- Line "Waste Detected:" -/
  | wasteDetected
  /-- Line "-> ..." followed by the record -/
  | detection (record : DetectionResult)
  /-- Line "[CONVEYOR] Processing ...", printed by `processWaste` -/
  | conveyorProcessing (record : DetectionResult)
  /-- Line "[CONVEYOR] Waste deposited in collection bin", printed by `processWaste` -/
  | conveyorDeposited
  /-- Line "Low battery - skipping waste collection" -/
  | skipWasteCollection
  /-- Line "No objects detected" -/
  | noObjects
  /-- Line "Low battery - skipping detection cycle" -/
  | skipDetection
  /-- Line "===== SYSTEM STATUS =====" and the lines after it -/
  | status (report : StatusReport)
  /-- Line "CRITICAL: Battery level below 5% - initiating shutdown" -/
  | criticalShutdown
  /-- Line "System shutdown complete" -/
  | shutdownComplete
  deriving DecidableEq

/-- Whether the event is an environmental reading. -/
def Event.isReading : Event → Bool
  | Event.environmentalData _ => true
  | _ => false

/-- Whether the event is one of the three headers logged right after `detect` returned:
"Marine Life Detected:", "Waste Detected:" or "No objects detected". -/
def Event.isFetch : Event → Bool
  | Event.marineDetected => true
  | Event.wasteDetected => true
  | Event.noObjects => true
  | _ => false

/-- Whether the event is a status report. -/
def Event.isStatus : Event → Bool
  | Event.status _ => true
  | _ => false

/-- Whether the event is the critical-shutdown line. -/
def Event.isCritical : Event → Bool
  | Event.criticalShutdown => true
  | _ => false

/-- Whether the event is the first line printed by `processWaste`. -/
def Event.isProcessing : Event → Bool
  | Event.conveyorProcessing _ => true
  | _ => false

/-- What one pass of the loop body of `run` reads from outside the program. -/
structure TickInput where
  /-- The value of `chrono::system_clock::now()` at the top of the body, in seconds -/
  currentTime : ℚ
  /-- The value of `localTime.tm_hour` -/
  hour : Int
  /-- The value of `sin((localTime.tm_hour - 6) * M_PI / 12.0f)` -/
  sinValue : ℚ
  /-- The clock read inside `readEnvironmentalSensors` -/
  envNow : Int
  /-- The `rand()` values of the fallback reading -/
  draws : FallbackDraws
  /-- The `rand()` value that picks the marine or the waste image -/
  frameRand : Nat
  /-- Whether `cv::imread` yields a non-empty image for a file name -/
  imread : String → Bool
  /-- The two clock reads inside `detect` -/
  detectNowMarine : Int
  detectNowWaste : Int

/-- The fields of class `FloatingAquaticMonitor` that the loop uses, the console stream, and
the local variables of `run` (`lastDetectionTime` to `lastEnvData`) together with its static
local `lastStatusTime` (`none` until the loop body has been entered once).  `lastEnvData` is
`none` until a reading has been taken. -/
structure FloatingAquaticMonitor where
  solarPanel : SolarPanel
  battery : Battery
  detector : AquaticDetector
  conveyor : ConveyorBelt
  isRunning : Bool
  detectionInterval : ℚ
  console : List Event
  lastDetectionTime : ℚ
  lastEnvReadingTime : ℚ
  lastMarineDetections : List DetectionResult
  lastWasteDetections : List DetectionResult
  lastEnvData : Option EnvironmentalData
  lastStatusTime : Option ℚ

namespace FloatingAquaticMonitor

/-- The constant `CAMERA_POWER`. -/
def CAMERA_POWER : ℚ := 5

/-- The constant `PROCESSING_POWER`. -/
def PROCESSING_POWER : ℚ := 10

/-- The constant `SENSOR_POWER`. -/
def SENSOR_POWER : ℚ := 2

/-- The constructor: `solarPanel(0.20f, 0.75f)`, `battery(500.0f, 100.0f)`, not running,
`detectionInterval(1.0f / 6.0f)`, around the given detector. -/
def construct (detector : AquaticDetector) : FloatingAquaticMonitor :=
  { solarPanel := SolarPanel.construct (1 / 5) (3 / 4),
    battery := Battery.construct 500 100,
    detector := detector,
    conveyor := ConveyorBelt.construct,
    isRunning := false,
    detectionInterval := 1 / 6,
    console := [],
    lastDetectionTime := 0,
    lastEnvReadingTime := 0,
    lastMarineDetections := [],
    lastWasteDetections := [],
    lastEnvData := none,
    lastStatusTime := none }

/-- The method `logData`: one more event at the end of the console stream. -/
def logData (st : FloatingAquaticMonitor) (message : Event) : FloatingAquaticMonitor :=
  { st with console := st.console ++ [message] }

/-- The head of `run` (source lines 496-503); `now` is the clock read at line 499. -/
def startRun (st : FloatingAquaticMonitor) (now : ℚ) : FloatingAquaticMonitor :=
  { logData { st with isRunning := true } Event.started with
    lastDetectionTime := now,
    lastEnvReadingTime := now,
    lastMarineDetections := [],
    lastWasteDetections := [],
    lastEnvData := none }

/-- The local `elapsedHours` of the loop body (source line 508). -/
def elapsedHours (st : FloatingAquaticMonitor) (currentTime : ℚ) : ℚ :=
  (currentTime - st.lastDetectionTime) / 3600

/-- The solar and charging block of the loop body (source lines 510-517). -/
def chargeStep (st : FloatingAquaticMonitor) (inp : TickInput) (elapsed : ℚ) :
    FloatingAquaticMonitor :=
  let isDay := decide (6 ≤ inp.hour) && decide (inp.hour < 18)
  let panel1 := st.solarPanel.setDaytime isDay
  let sunlightIntensity : ℚ := if isDay then 500 + 300 * inp.sinValue else 0
  let panel2 := panel1.update sunlightIntensity
  { st with
    solarPanel := panel2,
    battery := st.battery.charge panel2.getCurrentOutput elapsed }

/-- The two warnings that follow a reading (source lines 525-530). -/
def logWarnings (st : FloatingAquaticMonitor) (data : EnvironmentalData) :
    FloatingAquaticMonitor :=
  let st1 := if data.pH < 13 / 2 ∨ 17 / 2 < data.pH then st.logData Event.criticalPH else st
  if 50 < data.turbidity then st1.logData Event.highTurbidity else st1

/-- The environmental block of the loop body (source lines 519-534). -/
def envStep (st : FloatingAquaticMonitor) (inp : TickInput) : Option FloatingAquaticMonitor :=
  let envElapsedHours := (inp.currentTime - st.lastEnvReadingTime) / 3600
  if 1 / 12 ≤ envElapsedHours then
    let r := st.battery.discharge SENSOR_POWER (1 / 100)
    if r.1 then
      match st.detector.readEnvironmentalSensors inp.envNow inp.draws with
      | none => none
      | some (data, d1) =>
        let st1 : FloatingAquaticMonitor :=
          { st with battery := r.2, detector := d1, lastEnvData := some data }
        let st2 := logWarnings (st1.logData (Event.environmentalData data)) data
        some { st2 with lastEnvReadingTime := inp.currentTime }
    else
      some { st with battery := r.2 }
  else
    some st

/-- The body of the loop over `wasteDetections` (source lines 553-560). -/
def wasteStep (st : FloatingAquaticMonitor) (waste : DetectionResult) :
    FloatingAquaticMonitor :=
  let st1 := st.logData (Event.detection waste)
  if 20 < st1.battery.getChargePercentage then
    let c1 := st1.conveyor.processWaste waste
    let st2 : FloatingAquaticMonitor :=
      { st1 with
        conveyor := c1,
        console := st1.console ++ [Event.conveyorProcessing waste, Event.conveyorDeposited] }
    { st2 with battery := (st2.battery.discharge c1.getPowerUsage (2 / 3600)).2 }
  else
    st1.logData Event.skipWasteCollection

/-- The marine logging block (source lines 543-548). -/
def logMarineDetections (st : FloatingAquaticMonitor)
    (marineDetections : List DetectionResult) : FloatingAquaticMonitor :=
  if marineDetections.isEmpty then st
  else marineDetections.foldl (fun s r => s.logData (Event.detection r))
    (st.logData Event.marineDetected)

/-- The waste logging and collection block (source lines 550-562). -/
def collectWaste (st : FloatingAquaticMonitor)
    (wasteDetections : List DetectionResult) : FloatingAquaticMonitor :=
  if wasteDetections.isEmpty then st
  else wasteDetections.foldl wasteStep (st.logData Event.wasteDetected)

/-- The block for an empty result (source lines 564-566). -/
def logNoObjects (st : FloatingAquaticMonitor)
    (marineDetections wasteDetections : List DetectionResult) : FloatingAquaticMonitor :=
  if marineDetections.isEmpty && wasteDetections.isEmpty then st.logData Event.noObjects
  else st

/-- What follows `detect` (source lines 543-570): the three logging blocks, then the
assignment of the last detections and of the detection timer. -/
def recordDetections (st : FloatingAquaticMonitor) (currentTime : ℚ)
    (marineDetections wasteDetections : List DetectionResult) : FloatingAquaticMonitor :=
  { logNoObjects (collectWaste (logMarineDetections st marineDetections) wasteDetections)
      marineDetections wasteDetections with
    lastMarineDetections := marineDetections,
    lastWasteDetections := wasteDetections,
    lastDetectionTime := currentTime }

/-- The detection block of the loop body (source lines 536-575). -/
def detectionStep (st : FloatingAquaticMonitor) (inp : TickInput) (elapsed : ℚ) :
    Option FloatingAquaticMonitor :=
  if st.detectionInterval ≤ elapsed then
    let r := st.battery.discharge (CAMERA_POWER + PROCESSING_POWER) (1 / 20)
    if r.1 then
      let marineFrame := inp.frameRand % 2 == 0
      match st.detector.captureFrame marineFrame inp.imread with
      | none => none
      | some (false, d1) => some { st with battery := r.2, detector := d1 }
      | some (true, d1) =>
        match d1.detect inp.detectNowMarine inp.detectNowWaste with
        | none => none
        | some ((marineDetections, wasteDetections), d2) =>
          some (recordDetections { st with battery := r.2, detector := d2 } inp.currentTime
            marineDetections wasteDetections)
    else
      some (logData { st with battery := r.2 } Event.skipDetection)
  else
    some st

/-- The report logged by the status block. -/
def statusReport (st : FloatingAquaticMonitor) (inp : TickInput) : StatusReport :=
  { time := ⌊inp.currentTime⌋,
    solarOutput := st.solarPanel.getCurrentOutput,
    batteryLevel := st.battery.getChargePercentage,
    daytime := st.solarPanel.getIsDaytime,
    lastMarine := st.lastMarineDetections.head?,
    lastWaste := st.lastWasteDetections.head?,
    environment := st.lastEnvData }

/-- The status block of the loop body (source lines 577-603).  The static local
`lastStatusTime` takes the value `currentTime` the first time the block is reached. -/
def statusStep (st : FloatingAquaticMonitor) (inp : TickInput) : FloatingAquaticMonitor :=
  let lastStatusTime := st.lastStatusTime.getD inp.currentTime
  let statusElapsedHours := (inp.currentTime - lastStatusTime) / 3600
  if 1 / 4 ≤ statusElapsedHours then
    { logData st (Event.status (statusReport st inp)) with
      lastStatusTime := some inp.currentTime }
  else
    { st with lastStatusTime := some lastStatusTime }

/-- One pass of the loop body (source lines 507-605), when nothing throws. -/
def tick (st : FloatingAquaticMonitor) (inp : TickInput) : Option FloatingAquaticMonitor :=
  let elapsed := elapsedHours st inp.currentTime
  match envStep (chargeStep st inp elapsed) inp with
  | none => none
  | some st2 =>
    match detectionStep st2 inp elapsed with
    | none => none
    | some st3 => some (statusStep st3 inp)

/-- The method `stop`. -/
def stop (st : FloatingAquaticMonitor) : FloatingAquaticMonitor :=
  logData { st with isRunning := false, conveyor := st.conveyor.stop } Event.shutdownComplete

/-- The condition of the `while` loop (source line 505). -/
def loopGuard (st : FloatingAquaticMonitor) : Bool :=
  st.isRunning && decide (5 < st.battery.getChargePercentage)

/-- What follows the loop (source lines 612-614). -/
def afterLoop (st : FloatingAquaticMonitor) : FloatingAquaticMonitor :=
  if st.battery.getChargePercentage ≤ 5 then st.logData Event.criticalShutdown else st

/-- What happens during one pass of the loop: the inputs of the body and whether the other
thread calls `stop` while the body sleeps at its end. -/
structure LoopInput where
  body : TickInput
  stopRequested : Bool

/-- The loop of `run` and what follows it, from an iteration boundary: the controller when
`run` returns and the number of passes executed.  `none` when the given inputs are used up
while the loop is still going, or when a pass indexes a dataset out of bounds. -/
def runFrom (st : FloatingAquaticMonitor) :
    List LoopInput → Option (FloatingAquaticMonitor × Nat)
  | [] => if loopGuard st then none else some (afterLoop st, 0)
  | inp :: rest =>
    if loopGuard st then
      match tick st inp.body with
      | none => none
      | some st1 =>
        match runFrom (if inp.stopRequested then st1.stop else st1) rest with
        | none => none
        | some (final, passes) => some (final, passes + 1)
    else some (afterLoop st, 0)

/-- The method `run`: `now` is the clock read before the loop. -/
def run (st : FloatingAquaticMonitor) (now : ℚ) (inputs : List LoopInput) :
    Option (FloatingAquaticMonitor × Nat) :=
  runFrom (startRun st now) inputs

end FloatingAquaticMonitor

/-! ## Predicates used in the statements about the controller -/

/-- Each cursor indexes inside its dataset unless that dataset is empty. -/
def AquaticDetector.InBounds (d : AquaticDetector) : Prop :=
  (d.marineDataset ≠ [] → d.currentMarineIndex < d.marineDataset.length) ∧
  (d.wasteDataset ≠ [] → d.currentWasteIndex < d.wasteDataset.length)

instance (d : AquaticDetector) : Decidable d.InBounds := by
  unfold AquaticDetector.InBounds
  infer_instance

/-- Events that are neither a reading, nor a header logged after `detect`, nor a status
report, nor the critical-shutdown line. -/
def Event.isPlain : Event → Bool
  | Event.environmentalData _ => false
  | Event.marineDetected => false
  | Event.wasteDetected => false
  | Event.noObjects => false
  | Event.status _ => false
  | Event.criticalShutdown => false
  | _ => true

/-- The warnings that follow a reading, in the order they are logged. -/
def warningEvents (data : EnvironmentalData) : List Event :=
  (if data.pH < 13 / 2 ∨ 17 / 2 < data.pH then [Event.criticalPH] else []) ++
  (if 50 < data.turbidity then [Event.highTurbidity] else [])

/-! ## Sequences of detector calls -/

/-- A call of one of the three public methods of `AquaticDetector`, together with what the
call reads from outside (clock, `rand()`, `cv::imread`). -/
inductive DetectorCall where
  | detect (nowMarine nowWaste : Int)
  | readEnvironmentalSensors (now : Int) (draws : FallbackDraws)
  | captureFrame (isMarine : Bool) (imread : String → Bool)

/-- The detector after one call; `none` when the call indexes a dataset out of bounds. -/
def DetectorCall.apply (d : AquaticDetector) : DetectorCall → Option AquaticDetector
  | DetectorCall.detect nowMarine nowWaste => (d.detect nowMarine nowWaste).map Prod.snd
  | DetectorCall.readEnvironmentalSensors now draws =>
    (d.readEnvironmentalSensors now draws).map Prod.snd
  | DetectorCall.captureFrame isMarine imread => (d.captureFrame isMarine imread).map Prod.snd

/-- The detector after a sequence of calls, executed left to right; `none` as soon as one
of them indexes a dataset out of bounds. -/
def AquaticDetector.runCalls (d : AquaticDetector) : List DetectorCall → Option AquaticDetector
  | [] => some d
  | call :: rest =>
    match call.apply d with
    | none => none
    | some d1 => d1.runCalls rest

/-! ## Cursor arithmetic used in the proofs -/

/-- The cursor after one `detect` over a dataset of `n` entries: untouched when the dataset
is empty, `(i + 1) % n` otherwise. -/
def nextCursor (i n : Nat) : Nat := if n = 0 then i else (i + 1) % n

/-- The cursor after `k` calls of `detect` from cursor 0 over a dataset of `n` entries. -/
def cursorAfter (n k : Nat) : Nat := if n = 0 then 0 else k % n

/-- The half of the result `detect` produces at cursor `i`: one record built by `build`
from entry `i`, or nothing when there is no such entry. -/
def halfAt {α : Type} (build : α → Int → DetectionResult) (dataset : List α) (i : Nat)
    (now : Int) : List DetectionResult :=
  match dataset[i]? with
  | none => []
  | some data => [build data now]

/-! ## Example data used by the witnesses -/

/-- A marine dataset entry. -/
def exampleTurtle : MarineData :=
  { waterBodyType := "Ocean", locationType := "Reef", animalType := "Reptile",
    animalSpecies := "Green Turtle", imageFileName := "turtle.jpg", confidence := 90,
    size := 80, weight := 120, activity := "Swimming", temperature := 24, salinity := 35,
    pH := 8 }

/-- A second marine dataset entry. -/
def exampleSalmon : MarineData :=
  { waterBodyType := "River", locationType := "Estuary", animalType := "Fish",
    animalSpecies := "Salmon", imageFileName := "salmon.jpg", confidence := 75,
    size := 60, weight := 4, activity := "Feeding", temperature := 12, salinity := 15,
    pH := 7 }

/-- A third marine dataset entry. -/
def exampleCrab : MarineData :=
  { waterBodyType := "Ocean", locationType := "Shore", animalType := "Crustacean",
    animalSpecies := "Shore Crab", imageFileName := "crab.jpg", confidence := 60,
    size := 9, weight := 1, activity := "Resting", temperature := 18, salinity := 35,
    pH := 8 }

/-- A waste dataset entry. -/
def exampleBottle : WasteData :=
  { waterBodyType := "River", locationType := "Bank", wasteType := "Plastic",
    wasteSubtype := "Bottle", imageFileName := "bottle.jpg", confidence := 85, size := 25,
    weight := 1, temperature := 16, turbidity := 12, pH := 7 }

/-- A second waste dataset entry, without a subtype. -/
def exampleNet : WasteData :=
  { waterBodyType := "Ocean", locationType := "Harbour", wasteType := "Fishing net",
    wasteSubtype := "", imageFileName := "net.jpg", confidence := 70, size := 200,
    weight := 6, temperature := 20, turbidity := 30, pH := 8 }

/-- A clock that reads `1000 + k` twice during the `k`-th call. -/
def exampleClock (k : Nat) : Int × Int := (1000 + k, 1000 + k)

/-- A pass at time `t` seconds and local hour `hour`, with `sin` read as 1 and `imread`
given. -/
def exampleInput (t : ℚ) (hour : Int) (imread : String → Bool) : TickInput :=
  { currentTime := t, hour := hour, sinValue := 1, envNow := 1000, draws := ⟨0, 0, 0, 0, 0⟩,
    frameRand := 0, imread := imread, detectNowMarine := 1000, detectNowWaste := 1000 }

/-- The controller as constructed, around a detector with two waste and two marine
entries, right after the head of `run` at time 0. -/
def exampleMonitor : FloatingAquaticMonitor :=
  (FloatingAquaticMonitor.construct
    (AquaticDetector.construct [exampleBottle, exampleNet] [exampleTurtle, exampleSalmon])).startRun
    0

/-- The same controller with a battery of capacity 1/64 Wh (charge 7/640 Wh, 70 percent),
which is less than the 0.02 Wh a reading costs. -/
def exampleSmallBatteryMonitor : FloatingAquaticMonitor :=
  { exampleMonitor with battery := Battery.construct (1 / 64) 100 }

/-! ## Auxiliary lemmas -/

theorem stdMin_eq_min (a b : ℚ) : stdMin a b = min a b := by
  unfold stdMin
  rcases lt_or_le b a with h | h
  · rw [if_pos h, min_eq_right h.le]
  · rw [if_neg (not_lt.mpr h), min_eq_left h]

theorem Battery.charge_capacity (b : Battery) (power hours : ℚ) :
    (b.charge power hours).capacity = b.capacity := rfl

theorem Battery.charge_maxChargeRate (b : Battery) (power hours : ℚ) :
    (b.charge power hours).maxChargeRate = b.maxChargeRate := rfl

theorem Battery.charge_currentCharge (b : Battery) (power hours : ℚ) :
    (b.charge power hours).currentCharge =
      min b.capacity (b.currentCharge + min power b.maxChargeRate * hours) := by
  simp only [Battery.charge, stdMin_eq_min]

theorem Battery.discharge_of_le (b : Battery) (power hours : ℚ)
    (h : power * hours ≤ b.currentCharge) :
    b.discharge power hours =
      (true, { b with currentCharge := b.currentCharge - power * hours }) := by
  simp only [Battery.discharge, if_pos h]

theorem Battery.discharge_of_not_le (b : Battery) (power hours : ℚ)
    (h : ¬ power * hours ≤ b.currentCharge) :
    b.discharge power hours = (false, b) := by
  simp only [Battery.discharge, if_neg h]

/-- One call moving a non-negative amount of energy keeps the charge inside
`[0, capacity]` and leaves `capacity` and `maxChargeRate` alone. -/
theorem BatteryCall.apply_within (b : Battery) (c : BatteryCall)
    (hlo : 0 ≤ b.currentCharge) (hhi : b.currentCharge ≤ b.capacity)
    (he : 0 ≤ c.energy b.maxChargeRate) :
    (0 ≤ (c.apply b).currentCharge ∧ (c.apply b).currentCharge ≤ (c.apply b).capacity) ∧
      (c.apply b).capacity = b.capacity ∧ (c.apply b).maxChargeRate = b.maxChargeRate := by
  cases c with
  | charge power hours =>
    simp only [BatteryCall.energy, stdMin_eq_min] at he
    refine ⟨⟨?_, ?_⟩, rfl, rfl⟩
    · show 0 ≤ (b.charge power hours).currentCharge
      rw [Battery.charge_currentCharge]
      exact le_min (hlo.trans hhi) (add_nonneg hlo he)
    · show (b.charge power hours).currentCharge ≤ b.capacity
      rw [Battery.charge_currentCharge]
      exact min_le_left _ _
  | discharge power hours =>
    simp only [BatteryCall.energy] at he
    simp only [BatteryCall.apply]
    by_cases h : power * hours ≤ b.currentCharge
    · rw [Battery.discharge_of_le b power hours h]
      refine ⟨⟨sub_nonneg.mpr h, ?_⟩, rfl, rfl⟩
      show b.currentCharge - power * hours ≤ b.capacity
      linarith
    · rw [Battery.discharge_of_not_le b power hours h]
      exact ⟨⟨hlo, hhi⟩, rfl, rfl⟩

/-- A sequence of calls, each moving a non-negative amount of energy, keeps the charge
inside `[0, capacity]`. -/
theorem Battery.runCalls_within (calls : List BatteryCall) (b : Battery)
    (hlo : 0 ≤ b.currentCharge) (hhi : b.currentCharge ≤ b.capacity)
    (he : ∀ c ∈ calls, 0 ≤ c.energy b.maxChargeRate) :
    0 ≤ (b.runCalls calls).currentCharge ∧
      (b.runCalls calls).currentCharge ≤ (b.runCalls calls).capacity := by
  induction calls generalizing b with
  | nil => exact ⟨hlo, hhi⟩
  | cons c cs ih =>
    have hc := BatteryCall.apply_within b c hlo hhi (he c (List.mem_cons_self c cs))
    have hstep : b.runCalls (c :: cs) = (c.apply b).runCalls cs := rfl
    rw [hstep]
    refine ih (c.apply b) hc.1.1 hc.1.2 ?_
    intro c1 hc1
    rw [hc.2.2]
    exact he c1 (List.mem_cons_of_mem c hc1)

/-! ## Battery: claims C1 to C4 -/

/-- C1: `discharge(power, hours)` is all-or-nothing.  With `energyNeeded = power * hours`:
if `energyNeeded ≤ currentCharge` it returns `true`, the charge is reduced by exactly
`energyNeeded` and the other two fields are unchanged; otherwise it returns `false` and
the whole battery state is unchanged. -/
theorem Battery.discharge_all_or_nothing (b : Battery) (power hours : ℚ) :
    (power * hours ≤ b.currentCharge →
        (b.discharge power hours).1 = true ∧
        (b.discharge power hours).2.currentCharge = b.currentCharge - power * hours ∧
        (b.discharge power hours).2.capacity = b.capacity ∧
        (b.discharge power hours).2.maxChargeRate = b.maxChargeRate) ∧
    (¬ power * hours ≤ b.currentCharge →
        (b.discharge power hours).1 = false ∧ (b.discharge power hours).2 = b) := by
  constructor
  · intro h
    simp only [Battery.discharge_of_le b power hours h, and_self]
  · intro h
    simp only [Battery.discharge_of_not_le b power hours h, and_self]

/-- Witness for C1: a battery holding 400 of 500 accepts a draw of 40 and refuses a draw
of 450. -/
theorem Battery.discharge_all_or_nothing_witness :
    ((Battery.mk 500 400 100).discharge 40 1).1 = true ∧
    ((Battery.mk 500 400 100).discharge 40 1).2.currentCharge = 400 - 40 * 1 ∧
    ((Battery.mk 500 400 100).discharge 450 1).1 = false ∧
    ((Battery.mk 500 400 100).discharge 450 1).2 = Battery.mk 500 400 100 := by
  have h1 := (Battery.discharge_all_or_nothing (Battery.mk 500 400 100) 40 1).1 (by norm_num)
  have h2 := (Battery.discharge_all_or_nothing (Battery.mk 500 400 100) 450 1).2 (by norm_num)
  exact ⟨h1.1, h1.2.1, h2.1, h2.2⟩

/-- C2 as stated fails: on a fresh `Battery(500, 100)` a single `discharge(-200, 1)` lifts
the charge to 550, above the capacity 500, and a single `charge(50, -10)` lowers it
to -150, below 0. -/
theorem Battery.conservation_counterexample :
    ¬ (((Battery.construct 500 100).runCalls [BatteryCall.discharge (-200) 1]).currentCharge ≤
        ((Battery.construct 500 100).runCalls [BatteryCall.discharge (-200) 1]).capacity) ∧
    ¬ (0 ≤ ((Battery.construct 500 100).runCalls [BatteryCall.charge 50 (-10)]).currentCharge) := by
  constructor
  · norm_num [Battery.runCalls, BatteryCall.apply, Battery.discharge, Battery.construct]
  · norm_num [Battery.runCalls, BatteryCall.apply, Battery.charge, Battery.construct, stdMin]

/-- C2, amended: starting from a freshly constructed battery with positive capacity, after
every finite sequence of `charge` and `discharge` calls each of which moves a non-negative
amount of energy (`min(power, maxChargeRate) * hours ≥ 0` for `charge`,
`power * hours ≥ 0` for `discharge`), `0 ≤ currentCharge ≤ capacity`. -/
theorem Battery.conservation (cap maxRate : ℚ) (hcap : 0 < cap) (calls : List BatteryCall)
    (henergy : ∀ c ∈ calls, 0 ≤ c.energy maxRate) :
    0 ≤ ((Battery.construct cap maxRate).runCalls calls).currentCharge ∧
      ((Battery.construct cap maxRate).runCalls calls).currentCharge ≤
        ((Battery.construct cap maxRate).runCalls calls).capacity := by
  apply Battery.runCalls_within
  · show 0 ≤ cap * (7 / 10)
    positivity
  · show cap * (7 / 10) ≤ cap
    linarith
  · exact henergy

/-- Witness for the amended C2: `Battery(500, 100)` under `charge(50, 1)`,
`discharge(450, 1)`, `discharge(40, 1)`. -/
theorem Battery.conservation_witness :
    0 ≤ ((Battery.construct 500 100).runCalls
        [BatteryCall.charge 50 1, BatteryCall.discharge 450 1,
          BatteryCall.discharge 40 1]).currentCharge ∧
      ((Battery.construct 500 100).runCalls
        [BatteryCall.charge 50 1, BatteryCall.discharge 450 1,
          BatteryCall.discharge 40 1]).currentCharge ≤
      ((Battery.construct 500 100).runCalls
        [BatteryCall.charge 50 1, BatteryCall.discharge 450 1,
          BatteryCall.discharge 40 1]).capacity :=
  Battery.conservation 500 100 (by norm_num) _ (by
    intro c hc
    simp only [List.mem_cons, List.mem_singleton, List.not_mem_nil, or_false] at hc
    rcases hc with rfl | rfl | rfl <;> norm_num [BatteryCall.energy, stdMin])

/-- C3: `charge(power, hours)` is total and sets
`currentCharge = min(capacity, currentCharge + min(power, maxChargeRate) * hours)`, leaving
`capacity` and `maxChargeRate` unchanged; power above `maxChargeRate` is clamped to
`maxChargeRate`, and when the sum exceeds `capacity` the charge becomes `capacity`. -/
theorem Battery.charge_clamped (b : Battery) (power hours : ℚ) :
    (b.charge power hours).currentCharge =
        min b.capacity (b.currentCharge + min power b.maxChargeRate * hours) ∧
    (b.charge power hours).capacity = b.capacity ∧
    (b.charge power hours).maxChargeRate = b.maxChargeRate ∧
    (b.maxChargeRate < power → b.charge power hours = b.charge b.maxChargeRate hours) ∧
    (b.capacity < b.currentCharge + min power b.maxChargeRate * hours →
        (b.charge power hours).currentCharge = b.capacity) := by
  refine ⟨Battery.charge_currentCharge b power hours, rfl, rfl, ?_, ?_⟩
  · intro h
    simp only [Battery.charge, stdMin_eq_min, min_eq_right h.le, min_self]
  · intro h
    rw [Battery.charge_currentCharge, min_eq_left h.le]

/-- Witness for C3: `Battery(500, 100)` at 350 charged with 300 W for 1 h takes only 100 Wh;
charged with 100 W for 2 h it stops at the capacity 500. -/
theorem Battery.charge_clamped_witness :
    (Battery.mk 500 350 100).charge 300 1 = (Battery.mk 500 350 100).charge 100 1 ∧
    ((Battery.mk 500 350 100).charge 100 2).currentCharge = 500 :=
  ⟨(Battery.charge_clamped (Battery.mk 500 350 100) 300 1).2.2.2.1 (by norm_num),
    (Battery.charge_clamped (Battery.mk 500 350 100) 100 2).2.2.2.2 (by norm_num)⟩

/-- C4: `Battery(500, 100)` starts with charge `0.7 * 500 = 350` (70 percent); `charge(50, 1)`
gives 400; then `discharge(450, 1)` returns `false` and leaves 400; then `discharge(40, 1)`
returns `true` and leaves 360. -/
theorem Battery.scenario_500_100 :
    (Battery.construct 500 100).currentCharge = 350 ∧
    (Battery.construct 500 100).getChargePercentage = 70 ∧
    ((Battery.construct 500 100).charge 50 1).currentCharge = 400 ∧
    (((Battery.construct 500 100).charge 50 1).discharge 450 1).1 = false ∧
    (((Battery.construct 500 100).charge 50 1).discharge 450 1).2.currentCharge = 400 ∧
    ((((Battery.construct 500 100).charge 50 1).discharge 450 1).2.discharge 40 1).1 = true ∧
    ((((Battery.construct 500 100).charge 50 1).discharge 450 1).2.discharge 40 1).2.currentCharge
      = 360 := by
  norm_num [Battery.construct, Battery.charge, Battery.discharge, Battery.getChargePercentage,
    stdMin]

/-! ## SolarPanel: claims C7 to C9 -/

/-- C7: `update` is idempotent.  For every panel state and every intensity `x`, calling
`update(x)` twice in a row yields the same panel state and the same `getCurrentOutput()`
as calling it once. -/
theorem SolarPanel.update_idempotent (p : SolarPanel) (x : ℚ) :
    (p.update x).update x = p.update x ∧
    ((p.update x).update x).getCurrentOutput = (p.update x).getCurrentOutput := by
  have h : (p.update x).update x = p.update x := rfl
  exact ⟨h, by rw [h]⟩

/-- C8: `update(intensity)` sets `currentOutput` to `intensity * area * efficiency` when
`isDaytime` is true and to 0 when it is false, changes no other field, and the result
does not depend on the previous `currentOutput`. -/
theorem SolarPanel.update_output (p : SolarPanel) (intensity : ℚ) :
    (p.isDaytime = true →
        (p.update intensity).currentOutput = intensity * p.area * p.efficiency) ∧
    (p.isDaytime = false → (p.update intensity).currentOutput = 0) ∧
    (p.update intensity).efficiency = p.efficiency ∧
    (p.update intensity).area = p.area ∧
    (p.update intensity).isDaytime = p.isDaytime ∧
    (∀ previous : ℚ,
        ({ p with currentOutput := previous } : SolarPanel).update intensity
          = p.update intensity) := by
  refine ⟨?_, ?_, rfl, rfl, rfl, fun _ => rfl⟩
  · intro h
    simp only [SolarPanel.update, h, if_true]
  · intro h
    simp [SolarPanel.update, h]

/-- Witness for C8: a daytime panel with efficiency 1/2 and area 2 under intensity 4 gives
output 4; the same panel at night gives 0. -/
theorem SolarPanel.update_output_witness :
    ((SolarPanel.mk (1 / 2) 2 7 true).update 4).currentOutput = 4 * 2 * (1 / 2) ∧
    ((SolarPanel.mk (1 / 2) 2 7 false).update 4).currentOutput = 0 :=
  ⟨(SolarPanel.update_output (SolarPanel.mk (1 / 2) 2 7 true) 4).1 rfl,
    (SolarPanel.update_output (SolarPanel.mk (1 / 2) 2 7 false) 4).2.1 rfl⟩

/-- C9 as stated fails: after `SolarPanel(0.5, 2)`, `update(4)`, `setDaytime(false)` the
daytime flag is false while `currentOutput` is still 4. -/
theorem SolarPanel.night_output_counterexample :
    (((SolarPanel.construct (1 / 2) 2).runCalls
        [SolarCall.update 4, SolarCall.setDaytime false]).isDaytime = false) ∧
    ¬ (((SolarPanel.construct (1 / 2) 2).runCalls
        [SolarCall.update 4, SolarCall.setDaytime false]).currentOutput = 0) := by
  constructor
  · rfl
  · norm_num [SolarPanel.runCalls, SolarCall.apply, SolarPanel.update, SolarPanel.setDaytime,
      SolarPanel.construct]

/-- C9, amended: in every state reached from construction by a sequence of `update(x)` and
`setDaytime(b)` calls that is empty or whose last call is an `update`, `currentOutput` is
zero whenever the daytime flag is false. -/
theorem SolarPanel.night_output_zero (eff a : ℚ) (calls : List SolarCall)
    (hlast : ∀ c, calls.getLast? = some c → c.isUpdate = true)
    (hnight : ((SolarPanel.construct eff a).runCalls calls).isDaytime = false) :
    ((SolarPanel.construct eff a).runCalls calls).currentOutput = 0 := by
  rcases List.eq_nil_or_concat calls with hnil | ⟨front, c, hc⟩
  · subst hnil
    rfl
  · subst hc
    have hupd := hlast c (by simp)
    cases c with
    | setDaytime b => simp [SolarCall.isUpdate] at hupd
    | update x =>
      simp only [SolarPanel.runCalls, List.concat_eq_append, List.foldl_append, List.foldl_cons,
        List.foldl_nil, SolarCall.apply] at hnight ⊢
      have hflag : (List.foldl SolarCall.apply (SolarPanel.construct eff a) front).isDaytime
          = false := hnight
      simp [SolarPanel.update, hflag]

/-- Witness for the amended C9: `update(4)`, `setDaytime(false)`, `update(4)`. -/
theorem SolarPanel.night_output_zero_witness :
    ((SolarPanel.construct (1 / 2) 2).runCalls
      [SolarCall.update 4, SolarCall.setDaytime false, SolarCall.update 4]).currentOutput = 0 :=
  SolarPanel.night_output_zero (1 / 2) 2
    [SolarCall.update 4, SolarCall.setDaytime false, SolarCall.update 4]
    (by
      intro c hc
      simp only [List.getLast?_cons_cons, List.getLast?_singleton, Option.some.injEq] at hc
      subst hc
      rfl)
    rfl

/-! ## ConveyorBelt: claim C10 -/

/-- The wattage field is never written after construction. -/
theorem ConveyorCall.apply_powerUsage (c : ConveyorBelt) (call : ConveyorCall) :
    (call.apply c).powerUsage = c.powerUsage := by
  cases call with
  | activate => rfl
  | stop => rfl
  | processWaste waste =>
    simp only [ConveyorCall.apply, ConveyorBelt.processWaste]
    split <;> rfl

theorem ConveyorBelt.runCalls_powerUsage (calls : List ConveyorCall) (c : ConveyorBelt) :
    (c.runCalls calls).powerUsage = c.powerUsage := by
  induction calls generalizing c with
  | nil => rfl
  | cons call rest ih =>
    have hstep : c.runCalls (call :: rest) = (call.apply c).runCalls rest := rfl
    rw [hstep, ih, ConveyorCall.apply_powerUsage]

/-- C10: a new conveyor is idle; after `activate()` `isActive()` is true and after `stop()`
it is false, from any prior state; in every state reached from construction
`getPowerUsage()` is 150 while active and 0 while idle.  `isActive` and `getPowerUsage`
are reads: in the model they return a value and no new state. -/
theorem ConveyorBelt.state_machine :
    ConveyorBelt.construct.isActive = false ∧
    (∀ c : ConveyorBelt, c.activate.isActive = true ∧ c.stop.isActive = false) ∧
    (∀ calls : List ConveyorCall,
        (ConveyorBelt.construct.runCalls calls).getPowerUsage =
          if (ConveyorBelt.construct.runCalls calls).isActive then 150 else 0) := by
  refine ⟨rfl, fun c => ⟨rfl, rfl⟩, ?_⟩
  intro calls
  have h := ConveyorBelt.runCalls_powerUsage calls ConveyorBelt.construct
  have h150 : ConveyorBelt.construct.powerUsage = 150 := rfl
  simp only [ConveyorBelt.getPowerUsage, ConveyorBelt.isActive, h, h150]

/-! ## AquaticDetector: claims C5 and C6 -/

theorem nextCursor_cursorAfter (n k : Nat) :
    nextCursor (cursorAfter n k) n = cursorAfter n (k + 1) := by
  unfold nextCursor cursorAfter
  by_cases hn : n = 0
  · simp only [hn, if_true]
  · simp only [hn, if_false, Nat.mod_add_mod]

theorem cursorAfter_lt (n k : Nat) (hn : n ≠ 0) : cursorAfter n k < n := by
  unfold cursorAfter
  rw [if_neg hn]
  exact Nat.mod_lt k (Nat.pos_of_ne_zero hn)

theorem AquaticDetector.detectMarine_eq (d : AquaticDetector) (now : Int)
    (h : d.marineDataset ≠ [] → d.currentMarineIndex < d.marineDataset.length) :
    d.detectMarine now =
      some (halfAt marineDetection d.marineDataset d.currentMarineIndex now,
        { d with currentMarineIndex :=
            nextCursor d.currentMarineIndex d.marineDataset.length }) := by
  obtain ⟨waste, marine, iw, im, loaded⟩ := d
  unfold AquaticDetector.detectMarine halfAt nextCursor
  by_cases hE : marine = []
  · simp [hE]
  · have hlt := h hE
    have hlen : marine.length ≠ 0 := fun h0 => hE (List.length_eq_zero.mp h0)
    simp [hE, hlen, List.getElem?_eq_getElem hlt]

theorem AquaticDetector.detectWaste_eq (d : AquaticDetector) (now : Int)
    (h : d.wasteDataset ≠ [] → d.currentWasteIndex < d.wasteDataset.length) :
    d.detectWaste now =
      some (halfAt wasteDetection d.wasteDataset d.currentWasteIndex now,
        { d with currentWasteIndex :=
            nextCursor d.currentWasteIndex d.wasteDataset.length }) := by
  obtain ⟨waste, marine, iw, im, loaded⟩ := d
  unfold AquaticDetector.detectWaste halfAt nextCursor
  by_cases hE : waste = []
  · simp [hE]
  · have hlt := h hE
    have hlen : waste.length ≠ 0 := fun h0 => hE (List.length_eq_zero.mp h0)
    simp [hE, hlen, List.getElem?_eq_getElem hlt]

/-- With both cursors in bounds `detect` returns, and what it returns is determined by the
two cursors. -/
theorem AquaticDetector.detect_eq (d : AquaticDetector) (nowMarine nowWaste : Int)
    (hM : d.marineDataset ≠ [] → d.currentMarineIndex < d.marineDataset.length)
    (hW : d.wasteDataset ≠ [] → d.currentWasteIndex < d.wasteDataset.length) :
    d.detect nowMarine nowWaste =
      some ((halfAt marineDetection d.marineDataset d.currentMarineIndex nowMarine,
          halfAt wasteDetection d.wasteDataset d.currentWasteIndex nowWaste),
        { d with
          currentMarineIndex := nextCursor d.currentMarineIndex d.marineDataset.length,
          currentWasteIndex := nextCursor d.currentWasteIndex d.wasteDataset.length }) := by
  obtain ⟨waste, marine, iw, im, loaded⟩ := d
  unfold AquaticDetector.detect
  rw [AquaticDetector.detectMarine_eq _ nowMarine hM]
  simp only
  rw [AquaticDetector.detectWaste_eq
    (AquaticDetector.mk waste marine iw (nextCursor im marine.length) loaded) nowWaste hW]

theorem cursorAfter_zero (n : Nat) : cursorAfter n 0 = 0 := by
  unfold cursorAfter
  split <;> simp

theorem halfAt_cursorAfter {α : Type} (build : α → Int → DetectionResult) (dataset : List α)
    (k : Nat) (now : Int) (hN : 0 < dataset.length) :
    halfAt build dataset (cursorAfter dataset.length k) now =
      [build (dataset.get ⟨k % dataset.length, Nat.mod_lt k hN⟩) now] := by
  unfold halfAt cursorAfter
  rw [if_neg (Nat.pos_iff_ne_zero.mp hN), List.getElem?_eq_getElem (Nat.mod_lt k hN)]
  rfl

/-- The detector after `k` calls of `detect` on a freshly constructed detector: the datasets
are unchanged and each cursor is `k` modulo the size of its own dataset. -/
theorem AquaticDetector.afterDetects_construct (waste : List WasteData)
    (marine : List MarineData) (clock : Nat → Int × Int) (k : Nat) :
    AquaticDetector.afterDetects clock (AquaticDetector.construct waste marine) k =
      some { AquaticDetector.construct waste marine with
        currentMarineIndex := cursorAfter marine.length k,
        currentWasteIndex := cursorAfter waste.length k } := by
  induction k with
  | zero => simp [AquaticDetector.afterDetects, AquaticDetector.construct, cursorAfter_zero]
  | succ k ih =>
    unfold AquaticDetector.afterDetects
    rw [ih]
    simp only
    rw [AquaticDetector.detect_eq]
    · simp only [AquaticDetector.construct, nextCursor_cursorAfter]
    · intro hne
      exact cursorAfter_lt _ _ (fun h0 => hne (List.length_eq_zero.mp h0))
    · intro hne
      exact cursorAfter_lt _ _ (fun h0 => hne (List.length_eq_zero.mp h0))

/-- The pair returned by the `k`-th call of `detect` on a freshly constructed detector. -/
theorem AquaticDetector.kthDetect_construct (waste : List WasteData)
    (marine : List MarineData) (clock : Nat → Int × Int) (k : Nat) :
    AquaticDetector.kthDetect clock (AquaticDetector.construct waste marine) k =
      some (halfAt marineDetection marine (cursorAfter marine.length (k - 1)) (clock k).1,
        halfAt wasteDetection waste (cursorAfter waste.length (k - 1)) (clock k).2) := by
  unfold AquaticDetector.kthDetect
  rw [AquaticDetector.afterDetects_construct]
  simp only
  rw [AquaticDetector.detect_eq]
  · rfl
  · intro hne
    exact cursorAfter_lt _ _ (fun h0 => hne (List.length_eq_zero.mp h0))
  · intro hne
    exact cursorAfter_lt _ _ (fun h0 => hne (List.length_eq_zero.mp h0))

/-- The marine half `detect` returns at cursor `cursorAfter N k`, field by field. -/
theorem halfAt_marine_fields (marine : List MarineData) (k : Nat) (now : Int)
    (hN : 0 < marine.length) :
    ∃ m, marine[k % marine.length]? = some m ∧
      halfAt marineDetection marine (cursorAfter marine.length k) now =
        [DetectionResult.mk m.animalSpecies m.confidence m.size m.activity now] := by
  refine ⟨marine.get ⟨k % marine.length, Nat.mod_lt k hN⟩,
    List.getElem?_eq_getElem (Nat.mod_lt k hN), ?_⟩
  rw [halfAt_cursorAfter marineDetection marine k now hN]
  rfl

/-- The waste half `detect` returns at cursor `cursorAfter N k`, field by field. -/
theorem halfAt_waste_fields (waste : List WasteData) (k : Nat) (now : Int)
    (hN : 0 < waste.length) :
    ∃ w, waste[k % waste.length]? = some w ∧
      halfAt wasteDetection waste (cursorAfter waste.length k) now =
        [DetectionResult.mk
          (w.wasteType ++ (if w.wasteSubtype.isEmpty then "" else " (" ++ w.wasteSubtype ++ ")"))
          w.confidence w.size "" now] := by
  refine ⟨waste.get ⟨k % waste.length, Nat.mod_lt k hN⟩,
    List.getElem?_eq_getElem (Nat.mod_lt k hN), ?_⟩
  rw [halfAt_cursorAfter wasteDetection waste k now hN]
  rfl

/-- C5: cyclic reproduction.  On a freshly constructed detector (cursors 0), for every
`k ≥ 1` the `k`-th call of `detect` returns in its marine half exactly one record, whose
label, confidence, size and activity are the species, confidence, size and activity of
marine entry `(k - 1) mod N` (for `N ≥ 1` marine entries, whatever the waste dataset is);
likewise its waste half is one record whose label is the waste type of waste entry
`(k - 1) mod N`, followed by the subtype in brackets when there is one, with that entry's
confidence and size and an empty activity.  So call 1 and call `N + 1` carry the fields of
the same marine entry, and with waste dataset `[A, B]` three calls carry the fields of `A`,
`B`, `A`.  The time stamp of a record is the clock value read during its own call. -/
theorem AquaticDetector.cyclic_reproduction (waste : List WasteData)
    (marine : List MarineData) (clock : Nat → Int × Int) :
    (∀ k : Nat, 0 < marine.length → 1 ≤ k →
        ∃ m, marine[(k - 1) % marine.length]? = some m ∧
          (AquaticDetector.kthDetect clock (AquaticDetector.construct waste marine) k).map
              Prod.fst =
            some [DetectionResult.mk m.animalSpecies m.confidence m.size m.activity
              (clock k).1]) ∧
    (∀ k : Nat, 0 < waste.length → 1 ≤ k →
        ∃ w, waste[(k - 1) % waste.length]? = some w ∧
          (AquaticDetector.kthDetect clock (AquaticDetector.construct waste marine) k).map
              Prod.snd =
            some [DetectionResult.mk
              (w.wasteType ++
                (if w.wasteSubtype.isEmpty then "" else " (" ++ w.wasteSubtype ++ ")"))
              w.confidence w.size "" (clock k).2]) ∧
    (0 < marine.length →
        ∃ m, marine[0]? = some m ∧
          (AquaticDetector.kthDetect clock (AquaticDetector.construct waste marine) 1).map
              Prod.fst =
            some [DetectionResult.mk m.animalSpecies m.confidence m.size m.activity
              (clock 1).1] ∧
          (AquaticDetector.kthDetect clock (AquaticDetector.construct waste marine)
              (marine.length + 1)).map Prod.fst =
            some [DetectionResult.mk m.animalSpecies m.confidence m.size m.activity
              (clock (marine.length + 1)).1]) ∧
    (∀ A B : WasteData, waste = [A, B] →
        (AquaticDetector.kthDetect clock (AquaticDetector.construct waste marine) 1).map
            Prod.snd =
          some [DetectionResult.mk
            (A.wasteType ++
              (if A.wasteSubtype.isEmpty then "" else " (" ++ A.wasteSubtype ++ ")"))
            A.confidence A.size "" (clock 1).2] ∧
        (AquaticDetector.kthDetect clock (AquaticDetector.construct waste marine) 2).map
            Prod.snd =
          some [DetectionResult.mk
            (B.wasteType ++
              (if B.wasteSubtype.isEmpty then "" else " (" ++ B.wasteSubtype ++ ")"))
            B.confidence B.size "" (clock 2).2] ∧
        (AquaticDetector.kthDetect clock (AquaticDetector.construct waste marine) 3).map
            Prod.snd =
          some [DetectionResult.mk
            (A.wasteType ++
              (if A.wasteSubtype.isEmpty then "" else " (" ++ A.wasteSubtype ++ ")"))
            A.confidence A.size "" (clock 3).2]) := by
  refine ⟨?_, ?_, ?_, ?_⟩
  · intro k hN _
    obtain ⟨m, hm, hhalf⟩ := halfAt_marine_fields marine (k - 1) (clock k).1 hN
    refine ⟨m, hm, ?_⟩
    rw [AquaticDetector.kthDetect_construct, Option.map_some', hhalf]
  · intro k hN _
    obtain ⟨w, hw, hhalf⟩ := halfAt_waste_fields waste (k - 1) (clock k).2 hN
    refine ⟨w, hw, ?_⟩
    rw [AquaticDetector.kthDetect_construct, Option.map_some', hhalf]
  · intro hN
    obtain ⟨m, hm, hhalf1⟩ := halfAt_marine_fields marine 0 (clock 1).1 hN
    obtain ⟨m2, hm2, hhalf2⟩ := halfAt_marine_fields marine marine.length
      (clock (marine.length + 1)).1 hN
    rw [Nat.zero_mod] at hm
    rw [Nat.mod_self, hm] at hm2
    have hmm : m2 = m := (Option.some.inj hm2).symm
    subst hmm
    refine ⟨m2, hm, ?_, ?_⟩
    · rw [AquaticDetector.kthDetect_construct, Option.map_some']
      exact congrArg some hhalf1
    · rw [AquaticDetector.kthDetect_construct, Option.map_some']
      exact congrArg some hhalf2
  · intro A B hAB
    subst hAB
    refine ⟨?_, ?_, ?_⟩ <;>
      rw [AquaticDetector.kthDetect_construct, Option.map_some',
        halfAt_cursorAfter wasteDetection [A, B] _ _ (Nat.succ_pos 1)] <;>
      simp [wasteDetection]

/-- Witness for C5: with three marine entries and two waste entries, the fourth call
returns the turtle again, the second call the net and the third call the bottle again. -/
theorem AquaticDetector.cyclic_reproduction_witness :
    (AquaticDetector.kthDetect exampleClock
        (AquaticDetector.construct [exampleBottle, exampleNet]
          [exampleTurtle, exampleSalmon, exampleCrab]) 4).map Prod.fst =
      some [DetectionResult.mk "Green Turtle" 90 80 "Swimming" 1004] ∧
    (AquaticDetector.kthDetect exampleClock
        (AquaticDetector.construct [exampleBottle, exampleNet]
          [exampleTurtle, exampleSalmon, exampleCrab]) 2).map Prod.snd =
      some [DetectionResult.mk "Fishing net" 70 200 "" 1002] ∧
    (AquaticDetector.kthDetect exampleClock
        (AquaticDetector.construct [exampleBottle, exampleNet]
          [exampleTurtle, exampleSalmon, exampleCrab]) 3).map Prod.snd =
      some [DetectionResult.mk "Plastic (Bottle)" 85 25 "" 1003] := by
  obtain ⟨m, hm, h4⟩ := (AquaticDetector.cyclic_reproduction [exampleBottle, exampleNet]
    [exampleTurtle, exampleSalmon, exampleCrab] exampleClock).1 4 (by decide) (by decide)
  obtain ⟨w2, hw2, h2⟩ := (AquaticDetector.cyclic_reproduction [exampleBottle, exampleNet]
    [exampleTurtle, exampleSalmon, exampleCrab] exampleClock).2.1 2 (by decide) (by decide)
  obtain ⟨w3, hw3, h3⟩ := (AquaticDetector.cyclic_reproduction [exampleBottle, exampleNet]
    [exampleTurtle, exampleSalmon, exampleCrab] exampleClock).2.1 3 (by decide) (by decide)
  have em : m = exampleTurtle := by simpa using hm.symm
  have e2 : w2 = exampleNet := by simpa using hw2.symm
  have e3 : w3 = exampleBottle := by simpa using hw3.symm
  subst em
  subst e2
  subst e3
  refine ⟨?_, ?_, ?_⟩
  · rw [h4]
    rfl
  · rw [h2]
    simp only [exampleNet, exampleClock]
    decide
  · rw [h3]
    simp only [exampleBottle, exampleClock]
    decide

/-- C6: `detect` never fails.  On every detector state whose cursors index inside their
non-empty datasets, `detect` returns; the half of an empty dataset is the empty list and
its cursor is unchanged, and the half of a non-empty dataset is the one record built from
the entry under its cursor, and its cursor advances by one modulo the dataset size. -/
theorem AquaticDetector.detect_never_fails (d : AquaticDetector) (nowMarine nowWaste : Int)
    (hM : d.marineDataset ≠ [] → d.currentMarineIndex < d.marineDataset.length)
    (hW : d.wasteDataset ≠ [] → d.currentWasteIndex < d.wasteDataset.length) :
    ∃ (marineHalf wasteHalf : List DetectionResult) (d1 : AquaticDetector),
      d.detect nowMarine nowWaste = some ((marineHalf, wasteHalf), d1) ∧
      (d.marineDataset = [] →
        marineHalf = [] ∧ d1.currentMarineIndex = d.currentMarineIndex) ∧
      (d.wasteDataset = [] →
        wasteHalf = [] ∧ d1.currentWasteIndex = d.currentWasteIndex) ∧
      (d.marineDataset ≠ [] →
        (∃ data, d.marineDataset[d.currentMarineIndex]? = some data ∧
          marineHalf = [marineDetection data nowMarine]) ∧
        d1.currentMarineIndex = (d.currentMarineIndex + 1) % d.marineDataset.length) ∧
      (d.wasteDataset ≠ [] →
        (∃ data, d.wasteDataset[d.currentWasteIndex]? = some data ∧
          wasteHalf = [wasteDetection data nowWaste]) ∧
        d1.currentWasteIndex = (d.currentWasteIndex + 1) % d.wasteDataset.length) := by
  refine ⟨_, _, _, AquaticDetector.detect_eq d nowMarine nowWaste hM hW, ?_, ?_, ?_, ?_⟩
  · intro hE
    simp [halfAt, nextCursor, hE]
  · intro hE
    simp [halfAt, nextCursor, hE]
  · intro hE
    have hlt := hM hE
    have hlen : d.marineDataset.length ≠ 0 := fun h0 => hE (List.length_eq_zero.mp h0)
    simp [halfAt, nextCursor, hlen, List.getElem?_eq_getElem hlt]
  · intro hE
    have hlt := hW hE
    have hlen : d.wasteDataset.length ≠ 0 := fun h0 => hE (List.length_eq_zero.mp h0)
    simp [halfAt, nextCursor, hlen, List.getElem?_eq_getElem hlt]

/-- Witness for C6: a detector with an empty waste dataset and one marine entry. -/
theorem AquaticDetector.detect_never_fails_witness :
    ∃ (marineHalf wasteHalf : List DetectionResult) (d1 : AquaticDetector),
      (AquaticDetector.construct [] [exampleTurtle]).detect 1000 1000 =
        some ((marineHalf, wasteHalf), d1) ∧
      wasteHalf = [] ∧ d1.currentWasteIndex = 0 ∧
      marineHalf = [marineDetection exampleTurtle 1000] ∧ d1.currentMarineIndex = 0 := by
  obtain ⟨marineHalf, wasteHalf, d1, hret, _, hW0, hM1, _⟩ :=
    AquaticDetector.detect_never_fails (AquaticDetector.construct [] [exampleTurtle]) 1000 1000
      (fun _ => Nat.zero_lt_one) (fun h => absurd rfl h)
  obtain ⟨⟨data, hdata, hhalf⟩, hcur⟩ := hM1 (List.cons_ne_nil _ _)
  have hd : data = exampleTurtle := by
    have h0 : (AquaticDetector.construct [] [exampleTurtle]).marineDataset[
        (AquaticDetector.construct [] [exampleTurtle]).currentMarineIndex]? =
          some exampleTurtle := rfl
    rw [h0] at hdata
    exact (Option.some.inj hdata).symm
  exact ⟨marineHalf, wasteHalf, d1, hret, (hW0 rfl).1, (hW0 rfl).2, by rw [hhalf, hd], hcur⟩

/-! ## ConveyorBelt and waste collection: claims C11 and C12 -/

theorem ConveyorBelt.processWaste_isRunning (c : ConveyorBelt) (waste : DetectionResult) :
    (c.processWaste waste).isRunning = true := by
  unfold ConveyorBelt.processWaste
  cases h : c.isRunning <;> simp [h]

theorem ConveyorBelt.processWaste_powerUsage (c : ConveyorBelt) (waste : DetectionResult) :
    (c.processWaste waste).powerUsage = c.powerUsage := by
  unfold ConveyorBelt.processWaste
  split <;> rfl

/-- C11: for every waste record and every prior conveyor state, `processWaste(record)`
(with no `stop()` from another thread during the call) leaves the conveyor active, whether
it was idle or active before, and keeps the wattage; so in every state reached from
construction `getPowerUsage()` right after it is 150. -/
theorem ConveyorBelt.processWaste_active :
    (∀ (c : ConveyorBelt) (waste : DetectionResult),
        (c.processWaste waste).isActive = true ∧
        (c.processWaste waste).getPowerUsage = c.powerUsage) ∧
    (∀ (calls : List ConveyorCall) (waste : DetectionResult),
        ((ConveyorBelt.construct.runCalls calls).processWaste waste).getPowerUsage = 150) := by
  have hgen : ∀ (c : ConveyorBelt) (waste : DetectionResult),
      (c.processWaste waste).getPowerUsage = c.powerUsage := by
    intro c waste
    unfold ConveyorBelt.getPowerUsage
    rw [ConveyorBelt.processWaste_isRunning, if_pos rfl, ConveyorBelt.processWaste_powerUsage]
  refine ⟨fun c waste => ⟨ConveyorBelt.processWaste_isRunning c waste, hgen c waste⟩, ?_⟩
  intro calls waste
  rw [hgen, ConveyorBelt.runCalls_powerUsage]
  rfl

theorem FloatingAquaticMonitor.wasteStep_of_gt (st : FloatingAquaticMonitor)
    (waste : DetectionResult) (h : 20 < st.battery.getChargePercentage) :
    st.wasteStep waste =
      { st with
        conveyor := st.conveyor.processWaste waste,
        console := st.console ++
          [Event.detection waste, Event.conveyorProcessing waste, Event.conveyorDeposited],
        battery := (st.battery.discharge (st.conveyor.processWaste waste).getPowerUsage
          (2 / 3600)).2 } := by
  simp [FloatingAquaticMonitor.wasteStep, FloatingAquaticMonitor.logData, h]

theorem FloatingAquaticMonitor.wasteStep_of_not_gt (st : FloatingAquaticMonitor)
    (waste : DetectionResult) (h : ¬ 20 < st.battery.getChargePercentage) :
    st.wasteStep waste =
      { st with
        console := st.console ++ [Event.detection waste, Event.skipWasteCollection] } := by
  simp [FloatingAquaticMonitor.wasteStep, FloatingAquaticMonitor.logData, h]

/-- C12: gating of waste collection.  When the loop handles a waste record, the record is
passed to `processWaste` (and the conveyor's draw is discharged) if and only if the battery
percentage at that moment is strictly above 20; otherwise the conveyor and the battery are
left alone and "Low battery - skipping waste collection" is logged. -/
theorem FloatingAquaticMonitor.wasteStep_gating (st : FloatingAquaticMonitor)
    (waste : DetectionResult) :
    (20 < st.battery.getChargePercentage →
        (st.wasteStep waste).console = st.console ++
          [Event.detection waste, Event.conveyorProcessing waste, Event.conveyorDeposited] ∧
        (st.wasteStep waste).conveyor = st.conveyor.processWaste waste ∧
        (st.wasteStep waste).battery =
          (st.battery.discharge (st.conveyor.processWaste waste).getPowerUsage
            (2 / 3600)).2) ∧
    (¬ 20 < st.battery.getChargePercentage →
        (st.wasteStep waste).console = st.console ++
          [Event.detection waste, Event.skipWasteCollection] ∧
        (st.wasteStep waste).conveyor = st.conveyor ∧
        (st.wasteStep waste).battery = st.battery) ∧
    ((∃ e ∈ (st.wasteStep waste).console.drop st.console.length, e.isProcessing = true) ↔
        20 < st.battery.getChargePercentage) := by
  refine ⟨?_, ?_, ?_⟩
  · intro h
    rw [FloatingAquaticMonitor.wasteStep_of_gt st waste h]
    exact ⟨rfl, rfl, rfl⟩
  · intro h
    rw [FloatingAquaticMonitor.wasteStep_of_not_gt st waste h]
    exact ⟨rfl, rfl, rfl⟩
  · by_cases h : 20 < st.battery.getChargePercentage
    · rw [FloatingAquaticMonitor.wasteStep_of_gt st waste h]
      simp [h, Event.isProcessing]
    · rw [FloatingAquaticMonitor.wasteStep_of_not_gt st waste h]
      simp [h, Event.isProcessing]

/-- Witness for C12: with the battery at 19 percent (95 of 500) the record is logged and
skipped; at 21 percent (105 of 500) it is passed to the conveyor, which becomes active. -/
theorem FloatingAquaticMonitor.wasteStep_gating_witness :
    (({ FloatingAquaticMonitor.construct (AquaticDetector.construct [] []) with
          battery := Battery.mk 500 95 100 }).wasteStep
        (wasteDetection exampleBottle 1000)).console =
      [Event.detection (wasteDetection exampleBottle 1000), Event.skipWasteCollection] ∧
    (({ FloatingAquaticMonitor.construct (AquaticDetector.construct [] []) with
          battery := Battery.mk 500 105 100 }).wasteStep
        (wasteDetection exampleBottle 1000)).conveyor =
      ConveyorBelt.construct.processWaste (wasteDetection exampleBottle 1000) :=
  ⟨((FloatingAquaticMonitor.wasteStep_gating
      { FloatingAquaticMonitor.construct (AquaticDetector.construct [] []) with
          battery := Battery.mk 500 95 100 }
      (wasteDetection exampleBottle 1000)).2.1
        (by norm_num [FloatingAquaticMonitor.construct, Battery.getChargePercentage])).1,
    ((FloatingAquaticMonitor.wasteStep_gating
      { FloatingAquaticMonitor.construct (AquaticDetector.construct [] []) with
          battery := Battery.mk 500 105 100 }
      (wasteDetection exampleBottle 1000)).1
        (by norm_num [FloatingAquaticMonitor.construct, Battery.getChargePercentage])).2.1⟩

/-! ## Controller: claim C14 -/

/-- C14: `stop()`, from any controller state, sets the running flag to false and leaves
the conveyor idle (`isActive()` false, power draw 0); the battery, the solar panel and the
detector with its cursors are unchanged. -/
theorem FloatingAquaticMonitor.stop_effect (st : FloatingAquaticMonitor) :
    st.stop.isRunning = false ∧
    st.stop.conveyor.isActive = false ∧
    st.stop.conveyor.getPowerUsage = 0 ∧
    st.stop.battery = st.battery ∧
    st.stop.solarPanel = st.solarPanel ∧
    st.stop.detector = st.detector ∧
    st.stop.console = st.console ++ [Event.shutdownComplete] := by
  refine ⟨rfl, rfl, ?_, rfl, rfl, rfl, rfl⟩
  simp [FloatingAquaticMonitor.stop, FloatingAquaticMonitor.logData, ConveyorBelt.stop,
    ConveyorBelt.getPowerUsage]

/-! ## AquaticDetector: claim C19 -/

/-- C19: when both datasets are non-empty, with `wasteData` under the waste cursor and
`marineData` under the marine cursor, `readEnvironmentalSensors()` returns the mean of the
two temperatures, the mean of the two pH values, the turbidity of the waste entry and the
salinity of the marine entry, stamped with the clock, and leaves the detector (both
cursors included) unchanged. -/
theorem AquaticDetector.readEnvironmentalSensors_average (d : AquaticDetector) (now : Int)
    (draws : FallbackDraws) (wasteData : WasteData) (marineData : MarineData)
    (hW : d.wasteDataset[d.currentWasteIndex]? = some wasteData)
    (hM : d.marineDataset[d.currentMarineIndex]? = some marineData) :
    d.readEnvironmentalSensors now draws =
      some ({ temperature := (wasteData.temperature + marineData.temperature) / 2,
              turbidity := wasteData.turbidity,
              pH := (wasteData.pH + marineData.pH) / 2,
              salinity := marineData.salinity,
              timestamp := now }, d) := by
  have hWne : d.wasteDataset.isEmpty = false := by
    cases hl : d.wasteDataset with
    | nil => rw [hl] at hW; simp at hW
    | cons a l => rfl
  have hMne : d.marineDataset.isEmpty = false := by
    cases hl : d.marineDataset with
    | nil => rw [hl] at hM; simp at hM
    | cons a l => rfl
  simp [AquaticDetector.readEnvironmentalSensors, hWne, hMne, hW, hM]

/-- Witness for C19: waste dataset `[bottle, net]` with cursor 1 and marine dataset
`[turtle, salmon]` with cursor 0: temperature `(20 + 24) / 2`, pH `(8 + 8) / 2`, turbidity
30 and salinity 35. -/
theorem AquaticDetector.readEnvironmentalSensors_average_witness :
    (AquaticDetector.mk [exampleBottle, exampleNet] [exampleTurtle, exampleSalmon] 1 0
        true).readEnvironmentalSensors 1000 (FallbackDraws.mk 0 0 0 0 0) =
      some ({ temperature := (20 + 24) / 2, turbidity := 30, pH := (8 + 8) / 2,
              salinity := 35, timestamp := 1000 },
        AquaticDetector.mk [exampleBottle, exampleNet] [exampleTurtle, exampleSalmon] 1 0
          true) :=
  AquaticDetector.readEnvironmentalSensors_average
    (AquaticDetector.mk [exampleBottle, exampleNet] [exampleTurtle, exampleSalmon] 1 0 true)
    1000 (FallbackDraws.mk 0 0 0 0 0) exampleNet exampleTurtle rfl rfl

/-! ## Controller: the blocks of the loop body -/

theorem Event.isPlain_elim (e : Event) (h : e.isPlain = true) :
    e.isReading = false ∧ e.isFetch = false ∧ e.isStatus = false ∧ e.isCritical = false := by
  cases e <;> simp_all [Event.isPlain, Event.isReading, Event.isFetch, Event.isStatus,
    Event.isCritical]

theorem warningEvents_plain (data : EnvironmentalData) :
    ∀ e ∈ warningEvents data, e.isPlain = true := by
  intro e he
  unfold warningEvents at he
  rw [List.mem_append] at he
  rcases he with he | he
  · split at he
    · rw [List.mem_singleton] at he
      rw [he]
      rfl
    · exact absurd he (List.not_mem_nil e)
  · split at he
    · rw [List.mem_singleton] at he
      rw [he]
      rfl
    · exact absurd he (List.not_mem_nil e)

theorem FloatingAquaticMonitor.logWarnings_eq (st : FloatingAquaticMonitor)
    (data : EnvironmentalData) :
    st.logWarnings data = { st with console := st.console ++ warningEvents data } := by
  unfold FloatingAquaticMonitor.logWarnings warningEvents FloatingAquaticMonitor.logData
  by_cases h1 : data.pH < 13 / 2 ∨ 17 / 2 < data.pH <;>
    by_cases h2 : 50 < data.turbidity <;> simp [h1, h2]

theorem AquaticDetector.readEnvironmentalSensors_total (d : AquaticDetector) (now : Int)
    (draws : FallbackDraws) (hwf : d.InBounds) :
    ∃ data, d.readEnvironmentalSensors now draws = some (data, d) := by
  unfold AquaticDetector.readEnvironmentalSensors
  by_cases hW : d.wasteDataset = []
  · simp [hW]
  · by_cases hM : d.marineDataset = []
    · simp [hM]
    · have hWlt := hwf.2 hW
      have hMlt := hwf.1 hM
      simp [hW, hM, List.getElem?_eq_getElem hWlt, List.getElem?_eq_getElem hMlt]

theorem AquaticDetector.captureFrame_total (d : AquaticDetector) (isMarine : Bool)
    (imread : String → Bool) (hwf : d.InBounds) :
    ∃ flag, d.captureFrame isMarine imread = some (flag, d) := by
  unfold AquaticDetector.captureFrame
  by_cases hW : d.wasteDataset = []
  · by_cases hM : d.marineDataset = []
    · simp [hW, hM]
    · have hMlt := hwf.1 hM
      cases isMarine <;> simp [hW, hM, List.getElem?_eq_getElem hMlt]
  · have hWlt := hwf.2 hW
    by_cases hM : d.marineDataset = []
    · cases isMarine <;> simp [hW, hM, List.getElem?_eq_getElem hWlt]
    · have hMlt := hwf.1 hM
      cases isMarine <;>
        simp [hW, hM, List.getElem?_eq_getElem hWlt, List.getElem?_eq_getElem hMlt]

theorem FloatingAquaticMonitor.envStep_taken (st : FloatingAquaticMonitor) (inp : TickInput)
    (data : EnvironmentalData) (d1 : AquaticDetector)
    (hdue : (1 : ℚ) / 12 ≤ (inp.currentTime - st.lastEnvReadingTime) / 3600)
    (hok : (st.battery.discharge FloatingAquaticMonitor.SENSOR_POWER (1 / 100)).1 = true)
    (hdata : st.detector.readEnvironmentalSensors inp.envNow inp.draws = some (data, d1)) :
    st.envStep inp =
      some { st with
        battery := (st.battery.discharge FloatingAquaticMonitor.SENSOR_POWER (1 / 100)).2,
        detector := d1,
        lastEnvData := some data,
        console := st.console ++ Event.environmentalData data :: warningEvents data,
        lastEnvReadingTime := inp.currentTime } := by
  unfold FloatingAquaticMonitor.envStep
  simp only [hdue, hok, if_true, hdata, FloatingAquaticMonitor.logWarnings_eq,
    FloatingAquaticMonitor.logData, List.append_assoc, List.singleton_append]

theorem FloatingAquaticMonitor.envStep_failed (st : FloatingAquaticMonitor) (inp : TickInput)
    (hdue : (1 : ℚ) / 12 ≤ (inp.currentTime - st.lastEnvReadingTime) / 3600)
    (hok : ¬ (st.battery.discharge FloatingAquaticMonitor.SENSOR_POWER (1 / 100)).1 = true) :
    st.envStep inp =
      some { st with
        battery :=
          (st.battery.discharge FloatingAquaticMonitor.SENSOR_POWER (1 / 100)).2 } := by
  unfold FloatingAquaticMonitor.envStep
  simp only [hdue, hok, if_true, if_false, Bool.false_eq_true]

theorem FloatingAquaticMonitor.envStep_idle (st : FloatingAquaticMonitor) (inp : TickInput)
    (hdue : ¬ (1 : ℚ) / 12 ≤ (inp.currentTime - st.lastEnvReadingTime) / 3600) :
    st.envStep inp = some st := by
  unfold FloatingAquaticMonitor.envStep
  simp only [hdue, if_false]

theorem AquaticDetector.readEnvironmentalSensors_detector (d d1 : AquaticDetector)
    (now : Int) (draws : FallbackDraws) (data : EnvironmentalData)
    (h : d.readEnvironmentalSensors now draws = some (data, d1)) : d1 = d := by
  unfold AquaticDetector.readEnvironmentalSensors at h
  split at h
  · split at h
    · exact absurd h (Option.noConfusion)
    · split at h
      · exact absurd h (Option.noConfusion)
      · exact (congrArg Prod.snd (Option.some.inj h)).symm
  · exact (congrArg Prod.snd (Option.some.inj h)).symm

theorem FloatingAquaticMonitor.envStep_total (st : FloatingAquaticMonitor) (inp : TickInput)
    (hwf : st.detector.InBounds) : ∃ st1, st.envStep inp = some st1 := by
  by_cases hdue : (1 : ℚ) / 12 ≤ (inp.currentTime - st.lastEnvReadingTime) / 3600
  · by_cases hok : (st.battery.discharge FloatingAquaticMonitor.SENSOR_POWER (1 / 100)).1 = true
    · obtain ⟨data, hdata⟩ :=
        AquaticDetector.readEnvironmentalSensors_total st.detector inp.envNow inp.draws hwf
      exact ⟨_, FloatingAquaticMonitor.envStep_taken st inp data st.detector hdue hok hdata⟩
    · exact ⟨_, FloatingAquaticMonitor.envStep_failed st inp hdue hok⟩
  · exact ⟨_, FloatingAquaticMonitor.envStep_idle st inp hdue⟩

/-- Whenever the environmental block returns, it has kept the detector and the two other
timers, logged no header, status or shutdown line, and logged a reading exactly when it
moved its timer. -/
theorem FloatingAquaticMonitor.envStep_spec (st st1 : FloatingAquaticMonitor)
    (inp : TickInput) (h : st.envStep inp = some st1) :
    ∃ evs, st1.console = st.console ++ evs ∧
      st1.detector = st.detector ∧
      st1.lastDetectionTime = st.lastDetectionTime ∧
      st1.lastStatusTime = st.lastStatusTime ∧
      st1.detectionInterval = st.detectionInterval ∧
      (∀ e ∈ evs, e.isFetch = false ∧ e.isStatus = false ∧ e.isCritical = false) ∧
      ((∃ e ∈ evs, e.isReading = true) ↔
        st1.lastEnvReadingTime ≠ st.lastEnvReadingTime) := by
  by_cases hdue : (1 : ℚ) / 12 ≤ (inp.currentTime - st.lastEnvReadingTime) / 3600
  · by_cases hok : (st.battery.discharge FloatingAquaticMonitor.SENSOR_POWER (1 / 100)).1 = true
    · cases hr : st.detector.readEnvironmentalSensors inp.envNow inp.draws with
      | none =>
        unfold FloatingAquaticMonitor.envStep at h
        simp only [hdue, hok, if_true, hr] at h
        cases h
      | some p =>
        obtain ⟨data, d1⟩ := p
        have hd1 := AquaticDetector.readEnvironmentalSensors_detector _ _ _ _ _ hr
        rw [FloatingAquaticMonitor.envStep_taken st inp data d1 hdue hok hr] at h
        have hst1 := (Option.some.inj h).symm
        subst hst1
        have hne : inp.currentTime ≠ st.lastEnvReadingTime := by
          intro heq
          rw [heq, sub_self, zero_div] at hdue
          norm_num at hdue
        refine ⟨Event.environmentalData data :: warningEvents data, rfl, hd1, rfl, rfl, rfl,
          ?_, ?_⟩
        · intro e he
          rw [List.mem_cons] at he
          rcases he with he | he
          · rw [he]
            exact ⟨rfl, rfl, rfl⟩
          · exact (Event.isPlain_elim e (warningEvents_plain data e he)).2
        · constructor
          · intro _
            exact hne
          · intro _
            exact ⟨Event.environmentalData data, List.mem_cons_self _ _, rfl⟩
    · rw [FloatingAquaticMonitor.envStep_failed st inp hdue hok] at h
      have hst1 := (Option.some.inj h).symm
      subst hst1
      refine ⟨[], (List.append_nil _).symm, rfl, rfl, rfl, rfl, ?_, ?_⟩
      · intro e he
        exact absurd he (List.not_mem_nil e)
      · simp
  · rw [FloatingAquaticMonitor.envStep_idle st inp hdue] at h
    have hst1 := (Option.some.inj h).symm
    subst hst1
    refine ⟨[], (List.append_nil _).symm, rfl, rfl, rfl, rfl, ?_, ?_⟩
    · intro e he
      exact absurd he (List.not_mem_nil e)
    · simp

theorem FloatingAquaticMonitor.wasteStep_logs (s : FloatingAquaticMonitor)
    (w : DetectionResult) :
    ∃ evs, (s.wasteStep w).console = s.console ++ evs ∧ (∀ e ∈ evs, e.isPlain = true) ∧
      (s.wasteStep w).lastEnvReadingTime = s.lastEnvReadingTime ∧
      (s.wasteStep w).lastStatusTime = s.lastStatusTime ∧
      (s.wasteStep w).detector = s.detector := by
  by_cases h : 20 < s.battery.getChargePercentage
  · rw [FloatingAquaticMonitor.wasteStep_of_gt s w h]
    refine ⟨_, rfl, ?_, rfl, rfl, rfl⟩
    intro e he
    simp only [List.mem_cons, List.mem_singleton, List.not_mem_nil, or_false] at he
    rcases he with he | he | he <;> rw [he] <;> rfl
  · rw [FloatingAquaticMonitor.wasteStep_of_not_gt s w h]
    refine ⟨_, rfl, ?_, rfl, rfl, rfl⟩
    intro e he
    simp only [List.mem_cons, List.mem_singleton, List.not_mem_nil, or_false] at he
    rcases he with he | he <;> rw [he] <;> rfl

theorem FloatingAquaticMonitor.foldl_wasteStep_logs (ws : List DetectionResult)
    (s : FloatingAquaticMonitor) :
    ∃ evs, (ws.foldl FloatingAquaticMonitor.wasteStep s).console = s.console ++ evs ∧
      (∀ e ∈ evs, e.isPlain = true) ∧
      (ws.foldl FloatingAquaticMonitor.wasteStep s).lastEnvReadingTime
        = s.lastEnvReadingTime ∧
      (ws.foldl FloatingAquaticMonitor.wasteStep s).lastStatusTime = s.lastStatusTime ∧
      (ws.foldl FloatingAquaticMonitor.wasteStep s).detector = s.detector := by
  induction ws generalizing s with
  | nil => exact ⟨[], (List.append_nil _).symm, fun e he => absurd he (List.not_mem_nil e),
      rfl, rfl, rfl⟩
  | cons w rest ih =>
    obtain ⟨ev1, hc1, hp1, he1, hs1, hd1⟩ := FloatingAquaticMonitor.wasteStep_logs s w
    obtain ⟨ev2, hc2, hp2, he2, hs2, hd2⟩ := ih (s.wasteStep w)
    refine ⟨ev1 ++ ev2, ?_, ?_, ?_, ?_, ?_⟩
    · rw [List.foldl_cons, hc2, hc1, List.append_assoc]
    · intro e he
      rcases List.mem_append.mp he with h | h
      · exact hp1 e h
      · exact hp2 e h
    · rw [List.foldl_cons, he2, he1]
    · rw [List.foldl_cons, hs2, hs1]
    · rw [List.foldl_cons, hd2, hd1]

theorem FloatingAquaticMonitor.foldl_logDetection (ms : List DetectionResult)
    (s : FloatingAquaticMonitor) :
    ms.foldl (fun s r => s.logData (Event.detection r)) s =
      { s with console := s.console ++ ms.map Event.detection } := by
  induction ms generalizing s with
  | nil => simp
  | cons m rest ih =>
    rw [List.foldl_cons, ih]
    simp [FloatingAquaticMonitor.logData]

/-- What the three logging blocks after `detect` append: at least one header, and nothing
that is a reading, a status report or the shutdown line. -/
theorem FloatingAquaticMonitor.recordDetections_spec (s : FloatingAquaticMonitor) (t : ℚ)
    (m w : List DetectionResult) :
    ∃ evs, (s.recordDetections t m w).console = s.console ++ evs ∧
      (∃ e ∈ evs, e.isFetch = true) ∧
      (∀ e ∈ evs, e.isReading = false ∧ e.isStatus = false ∧ e.isCritical = false) ∧
      (s.recordDetections t m w).lastDetectionTime = t ∧
      (s.recordDetections t m w).lastMarineDetections = m ∧
      (s.recordDetections t m w).lastWasteDetections = w ∧
      (s.recordDetections t m w).lastEnvReadingTime = s.lastEnvReadingTime ∧
      (s.recordDetections t m w).lastStatusTime = s.lastStatusTime ∧
      (s.recordDetections t m w).detector = s.detector := by
  have hplain : ∀ (l : List DetectionResult), ∀ e ∈ l.map Event.detection,
      e.isPlain = true := by
    intro l e he
    obtain ⟨r, _, hr⟩ := List.mem_map.mp he
    rw [← hr]
    rfl
  cases m with
  | nil =>
    cases w with
    | nil =>
      refine ⟨[Event.noObjects], rfl, ⟨Event.noObjects, List.mem_singleton.mpr rfl, rfl⟩, ?_,
        rfl, rfl, rfl, rfl, rfl, rfl⟩
      intro e he
      rw [List.mem_singleton.mp he]
      exact ⟨rfl, rfl, rfl⟩
    | cons b l =>
      obtain ⟨evs, hc, hp, he, hs, hd⟩ :=
        FloatingAquaticMonitor.foldl_wasteStep_logs (b :: l) (s.logData Event.wasteDetected)
      refine ⟨Event.wasteDetected :: evs, ?_,
        ⟨Event.wasteDetected, List.mem_cons_self _ _, rfl⟩, ?_, rfl, rfl, rfl, he, hs, hd⟩
      · show (List.foldl FloatingAquaticMonitor.wasteStep (s.logData Event.wasteDetected)
          (b :: l)).console = _
        rw [hc]
        simp [FloatingAquaticMonitor.logData]
      · intro e hmem
        rcases List.mem_cons.mp hmem with h | h
        · rw [h]
          exact ⟨rfl, rfl, rfl⟩
        · exact ⟨(Event.isPlain_elim e (hp e h)).1, (Event.isPlain_elim e (hp e h)).2.2⟩
  | cons a k =>
    have hm : s.logMarineDetections (a :: k) =
        { s with console := s.console ++ Event.marineDetected ::
            (a :: k).map Event.detection } := by
      unfold FloatingAquaticMonitor.logMarineDetections
      rw [if_neg (by simp), FloatingAquaticMonitor.foldl_logDetection]
      simp [FloatingAquaticMonitor.logData]
    cases w with
    | nil =>
      refine ⟨Event.marineDetected :: (a :: k).map Event.detection, ?_,
        ⟨Event.marineDetected, List.mem_cons_self _ _, rfl⟩, ?_, rfl, rfl, rfl, ?_, ?_, ?_⟩
      · show (s.logMarineDetections (a :: k)).console = _
        rw [hm]
      · intro e hmem
        rcases List.mem_cons.mp hmem with h | h
        · rw [h]
          exact ⟨rfl, rfl, rfl⟩
        · exact ⟨(Event.isPlain_elim e (hplain _ e h)).1,
            (Event.isPlain_elim e (hplain _ e h)).2.2⟩
      · show (s.logMarineDetections (a :: k)).lastEnvReadingTime = _
        rw [hm]
      · show (s.logMarineDetections (a :: k)).lastStatusTime = _
        rw [hm]
      · show (s.logMarineDetections (a :: k)).detector = _
        rw [hm]
    | cons b l =>
      obtain ⟨evs, hc, hp, he, hs, hd⟩ :=
        FloatingAquaticMonitor.foldl_wasteStep_logs (b :: l)
          ((s.logMarineDetections (a :: k)).logData Event.wasteDetected)
      refine ⟨Event.marineDetected :: (a :: k).map Event.detection ++
          Event.wasteDetected :: evs, ?_,
        ⟨Event.marineDetected, List.mem_cons_self _ _, rfl⟩, ?_, rfl, rfl, rfl, ?_, ?_, ?_⟩
      · show (List.foldl FloatingAquaticMonitor.wasteStep _ (b :: l)).console = _
        rw [hc, hm]
        simp [FloatingAquaticMonitor.logData]
      · intro e hmem
        rcases List.mem_append.mp hmem with h | h
        · rcases List.mem_cons.mp h with h | h
          · rw [h]
            exact ⟨rfl, rfl, rfl⟩
          · exact ⟨(Event.isPlain_elim e (hplain _ e h)).1,
              (Event.isPlain_elim e (hplain _ e h)).2.2⟩
        · rcases List.mem_cons.mp h with h | h
          · rw [h]
            exact ⟨rfl, rfl, rfl⟩
          · exact ⟨(Event.isPlain_elim e (hp e h)).1, (Event.isPlain_elim e (hp e h)).2.2⟩
      · show (List.foldl FloatingAquaticMonitor.wasteStep _ (b :: l)).lastEnvReadingTime = _
        rw [he, hm]
        rfl
      · show (List.foldl FloatingAquaticMonitor.wasteStep _ (b :: l)).lastStatusTime = _
        rw [hs, hm]
        rfl
      · show (List.foldl FloatingAquaticMonitor.wasteStep _ (b :: l)).detector = _
        rw [hd, hm]
        rfl

theorem Battery.discharge_snd_of_failed (b : Battery) (power hours : ℚ)
    (h : ¬ (b.discharge power hours).1 = true) : (b.discharge power hours).2 = b := by
  by_cases hle : power * hours ≤ b.currentCharge
  · rw [Battery.discharge_of_le b power hours hle] at h
    exact absurd rfl h
  · rw [Battery.discharge_of_not_le b power hours hle]

theorem AquaticDetector.captureFrame_detector (d d1 : AquaticDetector) (isMarine : Bool)
    (imread : String → Bool) (flag : Bool)
    (h : d.captureFrame isMarine imread = some (flag, d1)) : d1 = d := by
  unfold AquaticDetector.captureFrame at h
  split at h
  · split at h
    · exact absurd h Option.noConfusion
    · exact (congrArg Prod.snd (Option.some.inj h)).symm
  · split at h
    · split at h
      · exact absurd h Option.noConfusion
      · exact (congrArg Prod.snd (Option.some.inj h)).symm
    · exact (congrArg Prod.snd (Option.some.inj h)).symm

theorem FloatingAquaticMonitor.detectionStep_idle (st : FloatingAquaticMonitor)
    (inp : TickInput) (elapsed : ℚ) (hdue : ¬ st.detectionInterval ≤ elapsed) :
    st.detectionStep inp elapsed = some st := by
  unfold FloatingAquaticMonitor.detectionStep
  simp only [hdue, if_false]

theorem FloatingAquaticMonitor.detectionStep_failed (st : FloatingAquaticMonitor)
    (inp : TickInput) (elapsed : ℚ) (hdue : st.detectionInterval ≤ elapsed)
    (hok : ¬ (st.battery.discharge
      (FloatingAquaticMonitor.CAMERA_POWER + FloatingAquaticMonitor.PROCESSING_POWER)
      (1 / 20)).1 = true) :
    st.detectionStep inp elapsed =
      some { st with console := st.console ++ [Event.skipDetection] } := by
  unfold FloatingAquaticMonitor.detectionStep
  simp only [hdue, hok, if_true, if_false, Bool.false_eq_true,
    FloatingAquaticMonitor.logData, Battery.discharge_snd_of_failed _ _ _ hok]

theorem FloatingAquaticMonitor.detectionStep_noFrame (st : FloatingAquaticMonitor)
    (inp : TickInput) (elapsed : ℚ) (d1 : AquaticDetector)
    (hdue : st.detectionInterval ≤ elapsed)
    (hok : (st.battery.discharge
      (FloatingAquaticMonitor.CAMERA_POWER + FloatingAquaticMonitor.PROCESSING_POWER)
      (1 / 20)).1 = true)
    (hcap : st.detector.captureFrame (inp.frameRand % 2 == 0) inp.imread = some (false, d1)) :
    st.detectionStep inp elapsed =
      some { st with
        battery := (st.battery.discharge
          (FloatingAquaticMonitor.CAMERA_POWER + FloatingAquaticMonitor.PROCESSING_POWER)
          (1 / 20)).2,
        detector := d1 } := by
  unfold FloatingAquaticMonitor.detectionStep
  simp only [hdue, hok, if_true, hcap]

theorem FloatingAquaticMonitor.detectionStep_fetched (st : FloatingAquaticMonitor)
    (inp : TickInput) (elapsed : ℚ) (d1 d2 : AquaticDetector)
    (marineDetections wasteDetections : List DetectionResult)
    (hdue : st.detectionInterval ≤ elapsed)
    (hok : (st.battery.discharge
      (FloatingAquaticMonitor.CAMERA_POWER + FloatingAquaticMonitor.PROCESSING_POWER)
      (1 / 20)).1 = true)
    (hcap : st.detector.captureFrame (inp.frameRand % 2 == 0) inp.imread = some (true, d1))
    (hdet : d1.detect inp.detectNowMarine inp.detectNowWaste =
      some ((marineDetections, wasteDetections), d2)) :
    st.detectionStep inp elapsed =
      some (FloatingAquaticMonitor.recordDetections
        { st with
          battery := (st.battery.discharge
            (FloatingAquaticMonitor.CAMERA_POWER + FloatingAquaticMonitor.PROCESSING_POWER)
            (1 / 20)).2,
          detector := d2 }
        inp.currentTime marineDetections wasteDetections) := by
  unfold FloatingAquaticMonitor.detectionStep
  simp only [hdue, hok, if_true, hcap, hdet]

theorem FloatingAquaticMonitor.detectionStep_total (st : FloatingAquaticMonitor)
    (inp : TickInput) (elapsed : ℚ) (hwf : st.detector.InBounds) :
    ∃ st1, st.detectionStep inp elapsed = some st1 := by
  by_cases hdue : st.detectionInterval ≤ elapsed
  · by_cases hok : (st.battery.discharge
      (FloatingAquaticMonitor.CAMERA_POWER + FloatingAquaticMonitor.PROCESSING_POWER)
      (1 / 20)).1 = true
    · obtain ⟨flag, hcap⟩ :=
        AquaticDetector.captureFrame_total st.detector (inp.frameRand % 2 == 0) inp.imread hwf
      cases flag with
      | false => exact ⟨_, FloatingAquaticMonitor.detectionStep_noFrame st inp elapsed _
          hdue hok hcap⟩
      | true =>
        exact ⟨_, FloatingAquaticMonitor.detectionStep_fetched st inp elapsed _ _ _ _ hdue hok
          hcap (AquaticDetector.detect_eq st.detector inp.detectNowMarine inp.detectNowWaste
            hwf.1 hwf.2)⟩
    · exact ⟨_, FloatingAquaticMonitor.detectionStep_failed st inp elapsed hdue hok⟩
  · exact ⟨_, FloatingAquaticMonitor.detectionStep_idle st inp elapsed hdue⟩

/-- Whenever the detection block returns, it has kept the two other timers, logged no
reading, status or shutdown line, and (for a positive detection interval) logged a header
exactly when it moved its timer. -/
theorem FloatingAquaticMonitor.detectionStep_spec (st st1 : FloatingAquaticMonitor)
    (inp : TickInput) (elapsed : ℚ) (h : st.detectionStep inp elapsed = some st1) :
    ∃ evs, st1.console = st.console ++ evs ∧
      st1.lastEnvReadingTime = st.lastEnvReadingTime ∧
      st1.lastStatusTime = st.lastStatusTime ∧
      (∀ e ∈ evs, e.isReading = false ∧ e.isStatus = false ∧ e.isCritical = false) ∧
      (0 < st.detectionInterval →
        elapsed = (inp.currentTime - st.lastDetectionTime) / 3600 →
        ((∃ e ∈ evs, e.isFetch = true) ↔
          st1.lastDetectionTime ≠ st.lastDetectionTime)) := by
  by_cases hdue : st.detectionInterval ≤ elapsed
  · by_cases hok : (st.battery.discharge
      (FloatingAquaticMonitor.CAMERA_POWER + FloatingAquaticMonitor.PROCESSING_POWER)
      (1 / 20)).1 = true
    · cases hcap : st.detector.captureFrame (inp.frameRand % 2 == 0) inp.imread with
      | none =>
        unfold FloatingAquaticMonitor.detectionStep at h
        simp only [hdue, hok, if_true, hcap] at h
        cases h
      | some p =>
        obtain ⟨flag, d1⟩ := p
        cases flag with
        | false =>
          rw [FloatingAquaticMonitor.detectionStep_noFrame st inp elapsed d1 hdue hok hcap] at h
          have hst1 := (Option.some.inj h).symm
          subst hst1
          refine ⟨[], (List.append_nil _).symm, rfl, rfl, ?_, ?_⟩
          · intro e he
            exact absurd he (List.not_mem_nil e)
          · intro _ _
            simp
        | true =>
          cases hdet : d1.detect inp.detectNowMarine inp.detectNowWaste with
          | none =>
            unfold FloatingAquaticMonitor.detectionStep at h
            simp only [hdue, hok, if_true, hcap, hdet] at h
            cases h
          | some q =>
            obtain ⟨⟨m, w⟩, d2⟩ := q
            rw [FloatingAquaticMonitor.detectionStep_fetched st inp elapsed d1 d2 m w hdue hok
              hcap hdet] at h
            have hst1 := (Option.some.inj h).symm
            subst hst1
            obtain ⟨evs, hc, hfetch, hnone, ht, _, _, he, hs, _⟩ :=
              FloatingAquaticMonitor.recordDetections_spec
                { st with
                  battery := (st.battery.discharge
                    (FloatingAquaticMonitor.CAMERA_POWER +
                      FloatingAquaticMonitor.PROCESSING_POWER) (1 / 20)).2,
                  detector := d2 }
                inp.currentTime m w
            refine ⟨evs, hc, he, hs, hnone, ?_⟩
            intro hpos hel
            have hne : inp.currentTime ≠ st.lastDetectionTime := by
              intro heq
              rw [hel, heq, sub_self, zero_div] at hdue
              exact absurd hpos (not_lt.mpr hdue)
            constructor
            · intro _
              rw [ht]
              exact hne
            · intro _
              exact hfetch
    · rw [FloatingAquaticMonitor.detectionStep_failed st inp elapsed hdue hok] at h
      have hst1 := (Option.some.inj h).symm
      subst hst1
      refine ⟨[Event.skipDetection], rfl, rfl, rfl, ?_, ?_⟩
      · intro e he
        rw [List.mem_singleton.mp he]
        exact ⟨rfl, rfl, rfl⟩
      · intro _ _
        simp [Event.isFetch]
  · rw [FloatingAquaticMonitor.detectionStep_idle st inp elapsed hdue] at h
    have hst1 := (Option.some.inj h).symm
    subst hst1
    refine ⟨[], (List.append_nil _).symm, rfl, rfl, ?_, ?_⟩
    · intro e he
      exact absurd he (List.not_mem_nil e)
    · intro _ _
      simp

theorem FloatingAquaticMonitor.statusStep_emit (st : FloatingAquaticMonitor)
    (inp : TickInput)
    (hdue : (1 : ℚ) / 4 ≤
      (inp.currentTime - st.lastStatusTime.getD inp.currentTime) / 3600) :
    st.statusStep inp =
      { st with
        console := st.console ++ [Event.status (st.statusReport inp)],
        lastStatusTime := some inp.currentTime } := by
  unfold FloatingAquaticMonitor.statusStep
  simp only [hdue, if_true, FloatingAquaticMonitor.logData]

theorem FloatingAquaticMonitor.statusStep_quiet (st : FloatingAquaticMonitor)
    (inp : TickInput)
    (hdue : ¬ (1 : ℚ) / 4 ≤
      (inp.currentTime - st.lastStatusTime.getD inp.currentTime) / 3600) :
    st.statusStep inp =
      { st with lastStatusTime := some (st.lastStatusTime.getD inp.currentTime) } := by
  unfold FloatingAquaticMonitor.statusStep
  simp only [hdue, if_false]

/-- The status block keeps the two other timers, logs no reading, header or shutdown line,
and logs a report exactly when it moves its timer; the first time it is reached it only
sets its timer. -/
theorem FloatingAquaticMonitor.statusStep_spec (st : FloatingAquaticMonitor)
    (inp : TickInput) :
    ∃ evs, (st.statusStep inp).console = st.console ++ evs ∧
      (st.statusStep inp).lastEnvReadingTime = st.lastEnvReadingTime ∧
      (st.statusStep inp).lastDetectionTime = st.lastDetectionTime ∧
      (∀ e ∈ evs, e.isReading = false ∧ e.isFetch = false ∧ e.isCritical = false) ∧
      (∀ t0, st.lastStatusTime = some t0 →
        ((∃ e ∈ evs, e.isStatus = true) ↔ (st.statusStep inp).lastStatusTime ≠ some t0)) ∧
      (st.lastStatusTime = none →
        (st.statusStep inp).lastStatusTime = some inp.currentTime ∧
        ∀ e ∈ evs, e.isStatus = false) := by
  by_cases hdue : (1 : ℚ) / 4 ≤
      (inp.currentTime - st.lastStatusTime.getD inp.currentTime) / 3600
  · rw [FloatingAquaticMonitor.statusStep_emit st inp hdue]
    refine ⟨[Event.status (st.statusReport inp)], rfl, rfl, rfl, ?_, ?_, ?_⟩
    · intro e he
      rw [List.mem_singleton.mp he]
      exact ⟨rfl, rfl, rfl⟩
    · intro t0 ht0
      have hne : inp.currentTime ≠ t0 := by
        intro heq
        rw [ht0, Option.getD_some, heq, sub_self, zero_div] at hdue
        norm_num at hdue
      constructor
      · intro _ hcontra
        exact hne (Option.some.inj hcontra)
      · intro _
        exact ⟨_, List.mem_singleton.mpr rfl, rfl⟩
    · intro hnone
      rw [hnone, Option.getD_none, sub_self, zero_div] at hdue
      norm_num at hdue
  · rw [FloatingAquaticMonitor.statusStep_quiet st inp hdue]
    refine ⟨[], (List.append_nil _).symm, rfl, rfl, ?_, ?_, ?_⟩
    · intro e he
      exact absurd he (List.not_mem_nil e)
    · intro t0 ht0
      constructor
      · rintro ⟨e, he, _⟩
        exact absurd he (List.not_mem_nil e)
      · intro hchg
        exact absurd (by rw [ht0, Option.getD_some]) hchg
    · intro hnone
      refine ⟨?_, fun e he => absurd he (List.not_mem_nil e)⟩
      show some (st.lastStatusTime.getD inp.currentTime) = some inp.currentTime
      rw [hnone, Option.getD_none]

theorem exists_mem_append_left {f : Event → Bool} {a b : List Event}
    (hb : ∀ e ∈ b, f e = false) :
    (∃ e ∈ a ++ b, f e = true) ↔ ∃ e ∈ a, f e = true := by
  constructor
  · rintro ⟨e, he, hf⟩
    rcases List.mem_append.mp he with h | h
    · exact ⟨e, h, hf⟩
    · rw [hb e h] at hf
      exact absurd hf Bool.false_ne_true
  · rintro ⟨e, he, hf⟩
    exact ⟨e, List.mem_append_left b he, hf⟩

theorem exists_mem_append_right {f : Event → Bool} {a b : List Event}
    (ha : ∀ e ∈ a, f e = false) :
    (∃ e ∈ a ++ b, f e = true) ↔ ∃ e ∈ b, f e = true := by
  constructor
  · rintro ⟨e, he, hf⟩
    rcases List.mem_append.mp he with h | h
    · rw [ha e h] at hf
      exact absurd hf Bool.false_ne_true
    · exact ⟨e, h, hf⟩
  · rintro ⟨e, he, hf⟩
    exact ⟨e, List.mem_append_right a he, hf⟩

theorem FloatingAquaticMonitor.tick_total (st : FloatingAquaticMonitor) (inp : TickInput)
    (hwf : st.detector.InBounds) : ∃ st1, st.tick inp = some st1 := by
  obtain ⟨st2, h2⟩ := FloatingAquaticMonitor.envStep_total
    (st.chargeStep inp (st.elapsedHours inp.currentTime)) inp hwf
  obtain ⟨_, _, hd2, _⟩ := FloatingAquaticMonitor.envStep_spec _ st2 inp h2
  have hwf2 : st2.detector.InBounds := by
    rw [hd2]
    exact hwf
  obtain ⟨st3, h3⟩ := FloatingAquaticMonitor.detectionStep_total st2 inp
    (st.elapsedHours inp.currentTime) hwf2
  refine ⟨st3.statusStep inp, ?_⟩
  unfold FloatingAquaticMonitor.tick
  simp only [h2, h3]

/-- Whenever a pass of the loop body returns: what it appended to the console contains
no shutdown line, a reading exactly when the environmental timer moved, a header exactly
when the detection timer moved, and a status report exactly when the status timer moved. -/
theorem FloatingAquaticMonitor.tick_spec (st st1 : FloatingAquaticMonitor) (inp : TickInput)
    (h : st.tick inp = some st1) :
    ∃ evs, st1.console = st.console ++ evs ∧
      (∀ e ∈ evs, e.isCritical = false) ∧
      ((∃ e ∈ evs, e.isReading = true) ↔
        st1.lastEnvReadingTime ≠ st.lastEnvReadingTime) ∧
      (0 < st.detectionInterval →
        ((∃ e ∈ evs, e.isFetch = true) ↔
          st1.lastDetectionTime ≠ st.lastDetectionTime)) ∧
      (∀ t0, st.lastStatusTime = some t0 →
        ((∃ e ∈ evs, e.isStatus = true) ↔ st1.lastStatusTime ≠ some t0)) ∧
      (st.lastStatusTime = none →
        st1.lastStatusTime = some inp.currentTime ∧ ∀ e ∈ evs, e.isStatus = false) := by
  unfold FloatingAquaticMonitor.tick at h
  cases h2 : (st.chargeStep inp (st.elapsedHours inp.currentTime)).envStep inp with
  | none =>
    simp only [h2] at h
    cases h
  | some st2 =>
    cases h3 : st2.detectionStep inp (st.elapsedHours inp.currentTime) with
    | none =>
      simp only [h2, h3] at h
      cases h
    | some st3 =>
      simp only [h2, h3] at h
      have hst1 := (Option.some.inj h).symm
      subst hst1
      obtain ⟨ev1, hc1, _, hdet1, hstat1, hint1, hq1, hiff1⟩ :=
        FloatingAquaticMonitor.envStep_spec _ st2 inp h2
      obtain ⟨ev2, hc2, henv2, hstat2, hq2, hiff2⟩ :=
        FloatingAquaticMonitor.detectionStep_spec st2 st3 inp _ h3
      obtain ⟨ev3, hc3, henv3, hdet3, hq3, hiff3, hinit3⟩ :=
        FloatingAquaticMonitor.statusStep_spec st3 inp
      have hdet1' : st2.lastDetectionTime = st.lastDetectionTime := hdet1
      have hstat1' : st2.lastStatusTime = st.lastStatusTime := hstat1
      have hint1' : st2.detectionInterval = st.detectionInterval := hint1
      have hc1' : st2.console = st.console ++ ev1 := hc1
      have hiff1' : (∃ e ∈ ev1, e.isReading = true) ↔
          st2.lastEnvReadingTime ≠ st.lastEnvReadingTime := hiff1
      refine ⟨ev1 ++ (ev2 ++ ev3), ?_, ?_, ?_, ?_, ?_, ?_⟩
      · rw [hc3, hc2, hc1', List.append_assoc, List.append_assoc]
      · intro e he
        rcases List.mem_append.mp he with h | h
        · exact (hq1 e h).2.2
        · rcases List.mem_append.mp h with h | h
          · exact (hq2 e h).2.2
          · exact (hq3 e h).2.2
      · rw [exists_mem_append_left, henv3, henv2]
        · exact hiff1'
        · intro e he
          rcases List.mem_append.mp he with h | h
          · exact (hq2 e h).1
          · exact (hq3 e h).1
      · intro hpos
        rw [exists_mem_append_right (fun e he => (hq1 e he).1),
          exists_mem_append_left (fun e he => (hq3 e he).2.1), hdet3, ← hdet1']
        refine hiff2 (by rw [hint1']; exact hpos) ?_
        rw [hdet1']
        rfl
      · intro t0 ht0
        rw [exists_mem_append_right (fun e he => (hq1 e he).2.1),
          exists_mem_append_right (fun e he => (hq2 e he).2.1)]
        exact hiff3 t0 (by rw [hstat2, hstat1', ht0])
      · intro hnone
        obtain ⟨hset, hno⟩ := hinit3 (by rw [hstat2, hstat1', hnone])
        refine ⟨hset, ?_⟩
        intro e he
        rcases List.mem_append.mp he with h | h
        · exact (hq1 e h).2.1
        · rcases List.mem_append.mp h with h | h
          · exact (hq2 e h).2.1
          · exact hno e h

/-! ## Controller: claim C13 -/

theorem countP_isCritical_append (a b : List Event)
    (hb : ∀ e ∈ b, e.isCritical = false) :
    (a ++ b).countP Event.isCritical = a.countP Event.isCritical := by
  rw [List.countP_append]
  have h0 : b.countP Event.isCritical = 0 := by
    rw [List.countP_eq_zero]
    intro e he
    rw [hb e he]
    exact Bool.false_ne_true
  rw [h0, Nat.add_zero]

theorem FloatingAquaticMonitor.afterLoop_of_le (st : FloatingAquaticMonitor)
    (h : st.battery.getChargePercentage ≤ 5) :
    st.afterLoop = st.logData Event.criticalShutdown := by
  unfold FloatingAquaticMonitor.afterLoop
  rw [if_pos h]

theorem FloatingAquaticMonitor.afterLoop_of_not_le (st : FloatingAquaticMonitor)
    (h : ¬ st.battery.getChargePercentage ≤ 5) : st.afterLoop = st := by
  unfold FloatingAquaticMonitor.afterLoop
  rw [if_neg h]

theorem FloatingAquaticMonitor.afterLoop_count (st : FloatingAquaticMonitor) :
    st.afterLoop.console.countP Event.isCritical =
      st.console.countP Event.isCritical +
        (if st.afterLoop.battery.getChargePercentage ≤ 5 then 1 else 0) := by
  by_cases h : st.battery.getChargePercentage ≤ 5
  · rw [FloatingAquaticMonitor.afterLoop_of_le st h]
    have hb : (st.logData Event.criticalShutdown).battery = st.battery := rfl
    have hc : (st.logData Event.criticalShutdown).console =
        st.console ++ [Event.criticalShutdown] := rfl
    rw [hb, hc, if_pos h, List.countP_append]
    rfl
  · rw [FloatingAquaticMonitor.afterLoop_of_not_le st h, if_neg h, Nat.add_zero]

theorem FloatingAquaticMonitor.runFrom_of_not_guard (st : FloatingAquaticMonitor)
    (inputs : List LoopInput) (h : st.loopGuard = false) :
    st.runFrom inputs = some (st.afterLoop, 0) := by
  cases inputs with
  | nil => simp [FloatingAquaticMonitor.runFrom, h]
  | cons inp rest => simp [FloatingAquaticMonitor.runFrom, h]

/-- Whenever `run` returns from an iteration boundary: if it executed a pass the loop
condition held at that boundary, and the console holds one more shutdown line than before
if the final percentage is at or below 5, and as many as before otherwise. -/
theorem FloatingAquaticMonitor.runFrom_spec (inputs : List LoopInput) :
    ∀ (st final : FloatingAquaticMonitor) (passes : Nat),
      st.runFrom inputs = some (final, passes) →
      (0 < passes → st.loopGuard = true) ∧
      final.console.countP Event.isCritical =
        st.console.countP Event.isCritical +
          (if final.battery.getChargePercentage ≤ 5 then 1 else 0) := by
  induction inputs with
  | nil =>
    intro st final passes h
    cases hg : st.loopGuard with
    | true => simp [FloatingAquaticMonitor.runFrom, hg] at h
    | false =>
      rw [FloatingAquaticMonitor.runFrom_of_not_guard st [] hg] at h
      obtain ⟨hf, hp⟩ := Prod.mk.inj (Option.some.inj h)
      subst hf
      subst hp
      exact ⟨fun h0 => absurd h0 (Nat.lt_irrefl 0), FloatingAquaticMonitor.afterLoop_count st⟩
  | cons inp rest ih =>
    intro st final passes h
    cases hg : st.loopGuard with
    | false =>
      rw [FloatingAquaticMonitor.runFrom_of_not_guard st _ hg] at h
      obtain ⟨hf, hp⟩ := Prod.mk.inj (Option.some.inj h)
      subst hf
      subst hp
      exact ⟨fun h0 => absurd h0 (Nat.lt_irrefl 0), FloatingAquaticMonitor.afterLoop_count st⟩
    | true =>
      refine ⟨fun _ => rfl, ?_⟩
      unfold FloatingAquaticMonitor.runFrom at h
      simp only [hg, if_true] at h
      cases ht : st.tick inp.body with
      | none =>
        simp only [ht] at h
        cases h
      | some st1 =>
        simp only [ht] at h
        obtain ⟨evs, hc, hq, _⟩ := FloatingAquaticMonitor.tick_spec st st1 inp.body ht
        have hcount1 : st1.console.countP Event.isCritical =
            st.console.countP Event.isCritical := by
          rw [hc, countP_isCritical_append _ _ hq]
        cases hr : FloatingAquaticMonitor.runFrom
            (if inp.stopRequested = true then st1.stop else st1) rest with
        | none =>
          simp only [hr] at h
          cases h
        | some q =>
          obtain ⟨final1, passes1⟩ := q
          simp only [hr] at h
          obtain ⟨hf, _⟩ := Prod.mk.inj (Option.some.inj h)
          subst hf
          have hrec := (ih _ final1 passes1 hr).2
          rw [hrec]
          congr 1
          cases hs : inp.stopRequested with
          | false => simpa using hcount1
          | true =>
            have hstop : st1.stop.console = st1.console ++ [Event.shutdownComplete] := rfl
            simp only [if_true, hstop]
            rw [countP_isCritical_append _ _ (by
              intro e he
              rw [List.mem_singleton.mp he]
              rfl)]
            exact hcount1

/-- C13: shutdown.  A pass of the loop is started exactly when the running flag is true
and the battery percentage is strictly above 5.  When the condition fails at an iteration
boundary `run` returns without a further pass; it then logs the critical-shutdown line
once if the percentage is at or below 5 and logs nothing otherwise.  Over a whole `run`
that returns, the number of critical-shutdown lines on the console grows by one if the
final percentage is at or below 5 and by none otherwise. -/
theorem FloatingAquaticMonitor.shutdown (st : FloatingAquaticMonitor)
    (inputs : List LoopInput) :
    (st.loopGuard = true ↔ (st.isRunning = true ∧ 5 < st.battery.getChargePercentage)) ∧
    (st.loopGuard = false → st.runFrom inputs = some (st.afterLoop, 0)) ∧
    (st.battery.getChargePercentage ≤ 5 →
        st.runFrom inputs = some (st.logData Event.criticalShutdown, 0)) ∧
    (st.isRunning = false → ¬ st.battery.getChargePercentage ≤ 5 →
        st.runFrom inputs = some (st, 0)) ∧
    (∀ (final : FloatingAquaticMonitor) (passes : Nat),
        st.runFrom inputs = some (final, passes) →
        (0 < passes → st.isRunning = true ∧ 5 < st.battery.getChargePercentage) ∧
        final.console.countP Event.isCritical =
          st.console.countP Event.isCritical +
            (if final.battery.getChargePercentage ≤ 5 then 1 else 0)) := by
  have hguard : st.loopGuard = true ↔
      (st.isRunning = true ∧ 5 < st.battery.getChargePercentage) := by
    simp [FloatingAquaticMonitor.loopGuard]
  refine ⟨hguard, FloatingAquaticMonitor.runFrom_of_not_guard st inputs, ?_, ?_, ?_⟩
  · intro hle
    have hg : st.loopGuard = false := by
      cases hgv : st.loopGuard with
      | false => rfl
      | true => exact absurd (hguard.mp hgv).2 (not_lt.mpr hle)
    rw [FloatingAquaticMonitor.runFrom_of_not_guard st inputs hg,
      FloatingAquaticMonitor.afterLoop_of_le st hle]
  · intro hrun hgt
    have hg : st.loopGuard = false := by
      cases hgv : st.loopGuard with
      | false => rfl
      | true =>
        rw [(hguard.mp hgv).1] at hrun
        exact absurd hrun Bool.noConfusion
    rw [FloatingAquaticMonitor.runFrom_of_not_guard st inputs hg,
      FloatingAquaticMonitor.afterLoop_of_not_le st hgt]
  · intro final passes hrun
    obtain ⟨hp, hc⟩ := FloatingAquaticMonitor.runFrom_spec inputs st final passes hrun
    exact ⟨fun h0 => hguard.mp (hp h0), hc⟩

/-- A pass in which neither the environmental nor the detection block is due only
charges the battery and runs the status block. -/
theorem FloatingAquaticMonitor.tick_quiet (st : FloatingAquaticMonitor) (inp : TickInput)
    (henv : ¬ (1 : ℚ) / 12 ≤ (inp.currentTime - st.lastEnvReadingTime) / 3600)
    (hdet : ¬ st.detectionInterval ≤ st.elapsedHours inp.currentTime) :
    st.tick inp =
      some ((st.chargeStep inp (st.elapsedHours inp.currentTime)).statusStep inp) := by
  have henv1 : ¬ (1 : ℚ) / 12 ≤ (inp.currentTime -
      (st.chargeStep inp (st.elapsedHours inp.currentTime)).lastEnvReadingTime) / 3600 := henv
  have hdet1 : ¬ (st.chargeStep inp (st.elapsedHours inp.currentTime)).detectionInterval ≤
      st.elapsedHours inp.currentTime := hdet
  unfold FloatingAquaticMonitor.tick
  simp only [FloatingAquaticMonitor.envStep_idle _ inp henv1,
    FloatingAquaticMonitor.detectionStep_idle _ inp _ hdet1]

/-- Witness for C13: with the battery at 4 percent `run` leaves the loop at once and logs
the shutdown line; a stopped controller at 70 percent leaves the loop and logs nothing;
and a run of one pass ended by `stop()` adds no shutdown line at 70 percent. -/
theorem FloatingAquaticMonitor.shutdown_witness :
    ({ exampleMonitor with battery := Battery.mk 500 20 100 }).runFrom [] =
      some (({ exampleMonitor with battery := Battery.mk 500 20 100 }).logData
        Event.criticalShutdown, 0) ∧
    exampleMonitor.stop.runFrom [] = some (exampleMonitor.stop, 0) ∧
    ∃ final, exampleMonitor.runFrom [LoopInput.mk (exampleInput 0 12 (fun _ => true)) true] =
        some (final, 1) ∧
      final.console.countP Event.isCritical = 0 := by
  refine ⟨(FloatingAquaticMonitor.shutdown
      { exampleMonitor with battery := Battery.mk 500 20 100 } []).2.2.1
        (by norm_num [Battery.getChargePercentage]),
    (FloatingAquaticMonitor.shutdown exampleMonitor.stop []).2.2.2.1 rfl
      (by norm_num [FloatingAquaticMonitor.stop, FloatingAquaticMonitor.logData,
        exampleMonitor, FloatingAquaticMonitor.startRun, FloatingAquaticMonitor.construct,
        Battery.construct, Battery.getChargePercentage]), ?_⟩
  have hrun : ∃ final, exampleMonitor.runFrom
      [LoopInput.mk (exampleInput 0 12 (fun _ => true)) true] = some (final, 1) ∧
      final.battery.getChargePercentage = 70 := by
    have hg : exampleMonitor.loopGuard = true := by
      norm_num [FloatingAquaticMonitor.loopGuard, exampleMonitor,
        FloatingAquaticMonitor.startRun, FloatingAquaticMonitor.construct,
        FloatingAquaticMonitor.logData, Battery.construct, Battery.getChargePercentage]
    have ht := FloatingAquaticMonitor.tick_quiet exampleMonitor
      (exampleInput 0 12 (fun _ => true))
      (by norm_num [exampleInput, exampleMonitor, FloatingAquaticMonitor.startRun])
      (by norm_num [exampleInput, exampleMonitor, FloatingAquaticMonitor.startRun,
        FloatingAquaticMonitor.elapsedHours, FloatingAquaticMonitor.construct,
        FloatingAquaticMonitor.logData])
    refine ⟨((exampleMonitor.chargeStep (exampleInput 0 12 (fun _ => true))
        (exampleMonitor.elapsedHours (exampleInput 0 12 (fun _ => true)).currentTime)).statusStep
          (exampleInput 0 12 (fun _ => true))).stop.afterLoop, ?hrun, ?hpct⟩
    case hrun =>
      unfold FloatingAquaticMonitor.runFrom
      simp only [hg, if_true, ht]
      rw [FloatingAquaticMonitor.runFrom_of_not_guard _ [] (by
        simp [FloatingAquaticMonitor.loopGuard, FloatingAquaticMonitor.stop,
          FloatingAquaticMonitor.logData])]
    case hpct =>
      norm_num [FloatingAquaticMonitor.afterLoop, FloatingAquaticMonitor.stop,
          FloatingAquaticMonitor.logData, FloatingAquaticMonitor.statusStep,
          FloatingAquaticMonitor.chargeStep, FloatingAquaticMonitor.elapsedHours, exampleInput,
          exampleMonitor, FloatingAquaticMonitor.startRun, FloatingAquaticMonitor.construct,
          Battery.construct, Battery.charge, Battery.getChargePercentage, stdMin,
          SolarPanel.construct, SolarPanel.update, SolarPanel.setDaytime,
          SolarPanel.getCurrentOutput]
  obtain ⟨final, hfinal, hpct⟩ := hrun
  refine ⟨final, hfinal, ?_⟩
  have hcount := ((FloatingAquaticMonitor.shutdown exampleMonitor
    [LoopInput.mk (exampleInput 0 12 (fun _ => true)) true]).2.2.2.2 final 1 hfinal).2
  rw [hcount, hpct]
  norm_num [exampleMonitor, FloatingAquaticMonitor.startRun, FloatingAquaticMonitor.logData,
    FloatingAquaticMonitor.construct, Event.isCritical]

/-! ## Controller: claims C15 and C16 -/

/-- C15 on the code: four passes at 0 s, 1 s, 2 s and 3 s after the start of `run`, at
noon, with no detection in between.  The hours handed to `Battery::charge` are the local
`elapsedHours`, measured from the last detection: 0, 1/3600, 2/3600 and 3/3600, six
seconds in all for three seconds of wall clock, and the battery gains `100 * 6/3600` Wh at
its maximum rate of 100 W. -/
theorem FloatingAquaticMonitor.charge_hours_counted_repeatedly :
    ∃ s1 s2 s3 s4 : FloatingAquaticMonitor,
      exampleMonitor.tick (exampleInput 0 12 (fun _ => true)) = some s1 ∧
      s1.tick (exampleInput 1 12 (fun _ => true)) = some s2 ∧
      s2.tick (exampleInput 2 12 (fun _ => true)) = some s3 ∧
      s3.tick (exampleInput 3 12 (fun _ => true)) = some s4 ∧
      exampleMonitor.elapsedHours 0 = 0 ∧
      s1.elapsedHours 1 = 1 / 3600 ∧
      s2.elapsedHours 2 = 2 / 3600 ∧
      s3.elapsedHours 3 = 3 / 3600 ∧
      s4.battery.currentCharge = exampleMonitor.battery.currentCharge + 100 * (6 / 3600) := by
  refine ⟨_, _, _, _,
    FloatingAquaticMonitor.tick_quiet exampleMonitor (exampleInput 0 12 (fun _ => true)) ?_ ?_,
    FloatingAquaticMonitor.tick_quiet _ (exampleInput 1 12 (fun _ => true)) ?_ ?_,
    FloatingAquaticMonitor.tick_quiet _ (exampleInput 2 12 (fun _ => true)) ?_ ?_,
    FloatingAquaticMonitor.tick_quiet _ (exampleInput 3 12 (fun _ => true)) ?_ ?_,
    ?_, ?_, ?_, ?_, ?_⟩ <;>
  norm_num [FloatingAquaticMonitor.statusStep, FloatingAquaticMonitor.chargeStep,
    FloatingAquaticMonitor.elapsedHours, exampleInput, exampleMonitor,
    FloatingAquaticMonitor.startRun, FloatingAquaticMonitor.construct,
    FloatingAquaticMonitor.logData, Battery.construct, Battery.charge, stdMin,
    SolarPanel.construct, SolarPanel.update, SolarPanel.setDaytime,
    SolarPanel.getCurrentOutput]

/-- In the controller as constructed a reading is always paid for: with the battery of
500 Wh and 100 W, a panel of non-negative area and efficiency, `sin` at least -1, the loop
condition true and the clock not before the last detection, the charge after the charging
block is above 25 Wh and the discharge for a reading succeeds. -/
theorem FloatingAquaticMonitor.reading_affordable (st : FloatingAquaticMonitor)
    (inp : TickInput) (hcap : st.battery.capacity = 500)
    (hrate : st.battery.maxChargeRate = 100)
    (harea : 0 ≤ st.solarPanel.area) (heff : 0 ≤ st.solarPanel.efficiency)
    (hsin : -1 ≤ inp.sinValue) (hguard : st.loopGuard = true)
    (hclock : st.lastDetectionTime ≤ inp.currentTime) :
    ((st.chargeStep inp (st.elapsedHours inp.currentTime)).battery.discharge
      FloatingAquaticMonitor.SENSOR_POWER (1 / 100)).1 = true := by
  have hpct : 5 < st.battery.currentCharge / 500 * 100 := by
    have h := hguard
    simp only [FloatingAquaticMonitor.loopGuard, Bool.and_eq_true, decide_eq_true_eq,
      Battery.getChargePercentage, hcap] at h
    exact h.2
  have hcharge : 25 < st.battery.currentCharge := by linarith
  have hel : 0 ≤ st.elapsedHours inp.currentTime := by
    unfold FloatingAquaticMonitor.elapsedHours
    exact div_nonneg (sub_nonneg.mpr hclock) (by norm_num)
  have hout : 0 ≤ ((st.solarPanel.setDaytime
      (decide (6 ≤ inp.hour) && decide (inp.hour < 18))).update
      (if (decide (6 ≤ inp.hour) && decide (inp.hour < 18)) = true
        then 500 + 300 * inp.sinValue else 0)).getCurrentOutput := by
    unfold SolarPanel.getCurrentOutput SolarPanel.update SolarPanel.setDaytime
    by_cases hday : (decide (6 ≤ inp.hour) && decide (inp.hour < 18)) = true
    · simp only [hday, if_true]
      have h200 : 0 ≤ 500 + 300 * inp.sinValue := by linarith
      exact mul_nonneg (mul_nonneg h200 harea) heff
    · simp only [hday, if_false, Bool.false_eq_true]
      exact le_refl 0
  have hnew : 25 < (st.chargeStep inp (st.elapsedHours inp.currentTime)).battery.currentCharge := by
    show 25 < (st.battery.charge _ (st.elapsedHours inp.currentTime)).currentCharge
    rw [Battery.charge_currentCharge, hcap, hrate]
    have he : 0 ≤ min ((st.solarPanel.setDaytime
        (decide (6 ≤ inp.hour) && decide (inp.hour < 18))).update
        (if (decide (6 ≤ inp.hour) && decide (inp.hour < 18)) = true
          then 500 + 300 * inp.sinValue else 0)).getCurrentOutput 100 *
        st.elapsedHours inp.currentTime :=
      mul_nonneg (le_min hout (by norm_num)) hel
    exact lt_min (by norm_num) (by linarith)
  have hle : FloatingAquaticMonitor.SENSOR_POWER * (1 / 100) ≤
      (st.chargeStep inp (st.elapsedHours inp.currentTime)).battery.currentCharge := by
    unfold FloatingAquaticMonitor.SENSOR_POWER
    linarith
  rw [Battery.discharge_of_le _ _ _ hle]

/-! ## Controller: claims C17 and C18 -/

/-- C17 as stated fails: 900 s after the last detection, with 350 Wh in the battery, the
detection is due and the discharge of 0.75 Wh succeeds, but no image loads, so
`captureFrame` returns false: the energy is spent, the detector keeps both cursors at 0 and
the last detections stay empty, although `detect` on that detector would return one marine
and one waste record and move both cursors to 1. -/
theorem FloatingAquaticMonitor.detection_fetch_counterexample :
    exampleMonitor.detectionInterval ≤ exampleMonitor.elapsedHours 900 ∧
    (exampleMonitor.battery.discharge
      (FloatingAquaticMonitor.CAMERA_POWER + FloatingAquaticMonitor.PROCESSING_POWER)
      (1 / 20)).1 = true ∧
    exampleMonitor.detectionStep (exampleInput 900 12 (fun _ => false))
        (exampleMonitor.elapsedHours 900) =
      some { exampleMonitor with
        battery := (exampleMonitor.battery.discharge
          (FloatingAquaticMonitor.CAMERA_POWER + FloatingAquaticMonitor.PROCESSING_POWER)
          (1 / 20)).2 } ∧
    exampleMonitor.lastMarineDetections = [] ∧
    exampleMonitor.detector.currentMarineIndex = 0 ∧
    exampleMonitor.detector.currentWasteIndex = 0 ∧
    exampleMonitor.detector.detect 1000 1000 =
      some (([marineDetection exampleTurtle 1000], [wasteDetection exampleBottle 1000]),
        { exampleMonitor.detector with currentMarineIndex := 1, currentWasteIndex := 1 }) := by
  have hdue : exampleMonitor.detectionInterval ≤ exampleMonitor.elapsedHours 900 := by
    norm_num [exampleMonitor, FloatingAquaticMonitor.startRun,
      FloatingAquaticMonitor.construct, FloatingAquaticMonitor.logData,
      FloatingAquaticMonitor.elapsedHours]
  have hok : (exampleMonitor.battery.discharge
      (FloatingAquaticMonitor.CAMERA_POWER + FloatingAquaticMonitor.PROCESSING_POWER)
      (1 / 20)).1 = true := by
    norm_num [exampleMonitor, FloatingAquaticMonitor.startRun,
      FloatingAquaticMonitor.construct, FloatingAquaticMonitor.logData, Battery.construct,
      Battery.discharge, FloatingAquaticMonitor.CAMERA_POWER,
      FloatingAquaticMonitor.PROCESSING_POWER]
  exact ⟨hdue, hok,
    FloatingAquaticMonitor.detectionStep_noFrame exampleMonitor
      (exampleInput 900 12 (fun _ => false)) _ exampleMonitor.detector hdue hok rfl,
    rfl, rfl, rfl, rfl⟩

/-- C17, amended: in a pass where the detection interval has elapsed, the discharge of the
camera-plus-processing cost (15 W for 0.05 h) succeeds and `captureFrame` returns true,
the controller calls `detect`, keeps the detector `detect` leaves behind (cursors
advanced), and records the two halves as the last detections and the pass time as the
detection time; when `captureFrame` returns false only the battery changes. -/
theorem FloatingAquaticMonitor.detection_fetch (st : FloatingAquaticMonitor)
    (inp : TickInput) (elapsed : ℚ) (hwf : st.detector.InBounds)
    (hdue : st.detectionInterval ≤ elapsed)
    (hok : (st.battery.discharge
      (FloatingAquaticMonitor.CAMERA_POWER + FloatingAquaticMonitor.PROCESSING_POWER)
      (1 / 20)).1 = true) :
    (st.detector.captureFrame (inp.frameRand % 2 == 0) inp.imread = some (true, st.detector) →
      ∃ (m w : List DetectionResult) (d2 : AquaticDetector) (st1 : FloatingAquaticMonitor),
        st.detector.detect inp.detectNowMarine inp.detectNowWaste = some ((m, w), d2) ∧
        st.detectionStep inp elapsed = some st1 ∧
        st1.detector = d2 ∧
        st1.lastMarineDetections = m ∧
        st1.lastWasteDetections = w ∧
        st1.lastDetectionTime = inp.currentTime) ∧
    (st.detector.captureFrame (inp.frameRand % 2 == 0) inp.imread =
        some (false, st.detector) →
      st.detectionStep inp elapsed =
        some { st with
          battery := (st.battery.discharge
            (FloatingAquaticMonitor.CAMERA_POWER + FloatingAquaticMonitor.PROCESSING_POWER)
            (1 / 20)).2 }) := by
  constructor
  · intro hcap
    have hdet := AquaticDetector.detect_eq st.detector inp.detectNowMarine inp.detectNowWaste
      hwf.1 hwf.2
    obtain ⟨_, _, _, _, ht, hm, hw, _, _, hd⟩ :=
      FloatingAquaticMonitor.recordDetections_spec
        { st with
          battery := (st.battery.discharge
            (FloatingAquaticMonitor.CAMERA_POWER + FloatingAquaticMonitor.PROCESSING_POWER)
            (1 / 20)).2,
          detector :=
            { st.detector with
              currentMarineIndex :=
                nextCursor st.detector.currentMarineIndex st.detector.marineDataset.length,
              currentWasteIndex :=
                nextCursor st.detector.currentWasteIndex st.detector.wasteDataset.length } }
        inp.currentTime
        (halfAt marineDetection st.detector.marineDataset st.detector.currentMarineIndex
          inp.detectNowMarine)
        (halfAt wasteDetection st.detector.wasteDataset st.detector.currentWasteIndex
          inp.detectNowWaste)
    exact ⟨_, _, _, _, hdet,
      FloatingAquaticMonitor.detectionStep_fetched st inp elapsed _ _ _ _ hdue hok hcap hdet,
      hd, hm, hw, ht⟩
  · intro hcap
    exact FloatingAquaticMonitor.detectionStep_noFrame st inp elapsed _ hdue hok hcap

/-- Witness for the amended C17: the example controller 900 s after the last detection,
with every image loading: the turtle and the bottle are recorded and both cursors are 1. -/
theorem FloatingAquaticMonitor.detection_fetch_witness :
    ∃ st1, exampleMonitor.detectionStep (exampleInput 900 12 (fun _ => true))
        (exampleMonitor.elapsedHours 900) = some st1 ∧
      st1.detector.currentMarineIndex = 1 ∧
      st1.detector.currentWasteIndex = 1 ∧
      st1.lastMarineDetections = [marineDetection exampleTurtle 1000] ∧
      st1.lastWasteDetections = [wasteDetection exampleBottle 1000] ∧
      st1.lastDetectionTime = 900 := by
  have hdue : exampleMonitor.detectionInterval ≤ exampleMonitor.elapsedHours 900 := by
    norm_num [exampleMonitor, FloatingAquaticMonitor.startRun,
      FloatingAquaticMonitor.construct, FloatingAquaticMonitor.logData,
      FloatingAquaticMonitor.elapsedHours]
  have hok : (exampleMonitor.battery.discharge
      (FloatingAquaticMonitor.CAMERA_POWER + FloatingAquaticMonitor.PROCESSING_POWER)
      (1 / 20)).1 = true := by
    norm_num [exampleMonitor, FloatingAquaticMonitor.startRun,
      FloatingAquaticMonitor.construct, FloatingAquaticMonitor.logData, Battery.construct,
      Battery.discharge, FloatingAquaticMonitor.CAMERA_POWER,
      FloatingAquaticMonitor.PROCESSING_POWER]
  have hwf : exampleMonitor.detector.InBounds :=
    ⟨fun _ => Nat.succ_pos 1, fun _ => Nat.succ_pos 1⟩
  obtain ⟨m, w, d2, st1, hdet, hstep, hd, hm, hw, ht⟩ :=
    (FloatingAquaticMonitor.detection_fetch exampleMonitor
      (exampleInput 900 12 (fun _ => true)) (exampleMonitor.elapsedHours 900) hwf hdue hok).1
      rfl
  have hconcrete : exampleMonitor.detector.detect 1000 1000 =
      some (([marineDetection exampleTurtle 1000], [wasteDetection exampleBottle 1000]),
        { exampleMonitor.detector with currentMarineIndex := 1, currentWasteIndex := 1 }) :=
    rfl
  have heq := Option.some.inj (hdet.symm.trans hconcrete)
  have hm0 : m = [marineDetection exampleTurtle 1000] := congrArg (fun r => r.1.1) heq
  have hw0 : w = [wasteDetection exampleBottle 1000] := congrArg (fun r => r.1.2) heq
  have hd0 : d2 = { exampleMonitor.detector with
      currentMarineIndex := 1, currentWasteIndex := 1 } := congrArg (fun r => r.2) heq
  refine ⟨st1, hstep, ?_, ?_, ?_, ?_, ht⟩
  · rw [hd, hd0]
  · rw [hd, hd0]
  · rw [hm, hm0]
  · rw [hw, hw0]

/-- C18: timers advance only with their actions.  In every pass of the loop body (detector
cursors in bounds, positive detection interval) the pass returns and, for the events it
appended to the console: `lastEnvReadingTime` changed if and only if a reading was logged,
`lastDetectionTime` changed if and only if a header that follows `detect` was logged, and
`lastStatusTime`, once initialised, changed if and only if a status report was logged (the
first pass initialises it and logs no report).  Moreover a detection that is due while its
discharge fails logs "Low battery - skipping detection cycle" and changes nothing else:
detection timer, battery and detector are as before. -/
theorem FloatingAquaticMonitor.timers_follow_actions (st : FloatingAquaticMonitor)
    (inp : TickInput) (hwf : st.detector.InBounds) (hpos : 0 < st.detectionInterval) :
    (∃ st1 evs, st.tick inp = some st1 ∧ st1.console = st.console ++ evs ∧
      (st1.lastEnvReadingTime ≠ st.lastEnvReadingTime ↔ ∃ e ∈ evs, e.isReading = true) ∧
      (st1.lastDetectionTime ≠ st.lastDetectionTime ↔ ∃ e ∈ evs, e.isFetch = true) ∧
      (∀ t0, st.lastStatusTime = some t0 →
        (st1.lastStatusTime ≠ some t0 ↔ ∃ e ∈ evs, e.isStatus = true)) ∧
      (st.lastStatusTime = none →
        st1.lastStatusTime = some inp.currentTime ∧ ∀ e ∈ evs, e.isStatus = false)) ∧
    (∀ elapsed : ℚ, st.detectionInterval ≤ elapsed →
      (st.battery.discharge
        (FloatingAquaticMonitor.CAMERA_POWER + FloatingAquaticMonitor.PROCESSING_POWER)
        (1 / 20)).1 = false →
      st.detectionStep inp elapsed =
        some { st with console := st.console ++ [Event.skipDetection] }) := by
  constructor
  · obtain ⟨st1, h1⟩ := FloatingAquaticMonitor.tick_total st inp hwf
    obtain ⟨evs, hc, _, hread, hfetch, hstat, hinit⟩ :=
      FloatingAquaticMonitor.tick_spec st st1 inp h1
    exact ⟨st1, evs, h1, hc, hread.symm, (hfetch hpos).symm,
      fun t0 ht0 => (hstat t0 ht0).symm, hinit⟩
  · intro elapsed hdue hfail
    exact FloatingAquaticMonitor.detectionStep_failed st inp elapsed hdue (by
      rw [hfail]
      exact Bool.false_ne_true)

/-- Witness for C18: the controller with the small battery, 900 s after the start: the
detection is due, its discharge fails and only the skip line is logged. -/
theorem FloatingAquaticMonitor.timers_follow_actions_witness :
    exampleSmallBatteryMonitor.detectionStep (exampleInput 900 0 (fun _ => true)) (1 / 4) =
      some { exampleSmallBatteryMonitor with
        console := exampleSmallBatteryMonitor.console ++ [Event.skipDetection] } :=
  (FloatingAquaticMonitor.timers_follow_actions exampleSmallBatteryMonitor
    (exampleInput 900 0 (fun _ => true))
    ⟨fun _ => Nat.succ_pos 1, fun _ => Nat.succ_pos 1⟩
    (by norm_num [exampleSmallBatteryMonitor, exampleMonitor,
      FloatingAquaticMonitor.startRun, FloatingAquaticMonitor.construct,
      FloatingAquaticMonitor.logData])).2 (1 / 4)
    (by norm_num [exampleSmallBatteryMonitor, exampleMonitor,
      FloatingAquaticMonitor.startRun, FloatingAquaticMonitor.construct,
      FloatingAquaticMonitor.logData])
    (by norm_num [exampleSmallBatteryMonitor, Battery.construct, Battery.discharge,
      FloatingAquaticMonitor.CAMERA_POWER, FloatingAquaticMonitor.PROCESSING_POWER])

/-! ## AquaticDetector: claim C21 -/

theorem nextCursor_lt (i n : Nat) (hn : n ≠ 0) : nextCursor i n < n := by
  unfold nextCursor
  rw [if_neg hn]
  exact Nat.mod_lt _ (Nat.pos_of_ne_zero hn)

/-- One call on a detector with its cursors in bounds returns, keeps the datasets and
leaves the cursors in bounds. -/
theorem DetectorCall.apply_inBounds (d : AquaticDetector) (call : DetectorCall)
    (hwf : d.InBounds) :
    ∃ d1, call.apply d = some d1 ∧ d1.InBounds ∧
      d1.marineDataset = d.marineDataset ∧ d1.wasteDataset = d.wasteDataset := by
  cases call with
  | detect nowMarine nowWaste =>
    refine ⟨{ d with
        currentMarineIndex := nextCursor d.currentMarineIndex d.marineDataset.length,
        currentWasteIndex := nextCursor d.currentWasteIndex d.wasteDataset.length },
      ?_, ?_, rfl, rfl⟩
    · show (d.detect nowMarine nowWaste).map Prod.snd = _
      rw [AquaticDetector.detect_eq d nowMarine nowWaste hwf.1 hwf.2]
      rfl
    · constructor
      · intro hne
        exact nextCursor_lt _ _ (fun h0 => hne (List.length_eq_zero.mp h0))
      · intro hne
        exact nextCursor_lt _ _ (fun h0 => hne (List.length_eq_zero.mp h0))
  | readEnvironmentalSensors now draws =>
    obtain ⟨data, hdata⟩ := AquaticDetector.readEnvironmentalSensors_total d now draws hwf
    refine ⟨d, ?_, hwf, rfl, rfl⟩
    show (d.readEnvironmentalSensors now draws).map Prod.snd = _
    rw [hdata]
    rfl
  | captureFrame isMarine imread =>
    obtain ⟨flag, hflag⟩ := AquaticDetector.captureFrame_total d isMarine imread hwf
    refine ⟨d, ?_, hwf, rfl, rfl⟩
    show (d.captureFrame isMarine imread).map Prod.snd = _
    rw [hflag]
    rfl

theorem AquaticDetector.runCalls_inBounds (calls : List DetectorCall) :
    ∀ d : AquaticDetector, d.InBounds →
      ∃ d1, d.runCalls calls = some d1 ∧ d1.InBounds ∧
        d1.marineDataset = d.marineDataset ∧ d1.wasteDataset = d.wasteDataset := by
  induction calls with
  | nil =>
    intro d hwf
    exact ⟨d, rfl, hwf, rfl, rfl⟩
  | cons call rest ih =>
    intro d hwf
    obtain ⟨d1, h1, hwf1, hm1, hw1⟩ := DetectorCall.apply_inBounds d call hwf
    obtain ⟨d2, h2, hwf2, hm2, hw2⟩ := ih d1 hwf1
    refine ⟨d2, ?_, hwf2, hm2.trans hm1, hw2.trans hw1⟩
    unfold AquaticDetector.runCalls
    simp only [h1]
    exact h2

theorem AquaticDetector.construct_inBounds (waste : List WasteData)
    (marine : List MarineData) : (AquaticDetector.construct waste marine).InBounds := by
  constructor
  · intro hne
    exact List.length_pos.mpr hne
  · intro hne
    exact List.length_pos.mpr hne

/-- C21: cursor safety.  From a freshly constructed detector (cursors 0), every sequence of
`detect`, `readEnvironmentalSensors` and `captureFrame` calls runs without indexing a
dataset out of bounds, the datasets are unchanged, and afterwards each cursor is strictly
below the size of its dataset whenever that dataset is non-empty. -/
theorem AquaticDetector.cursor_safety (waste : List WasteData) (marine : List MarineData)
    (calls : List DetectorCall) :
    ∃ d, (AquaticDetector.construct waste marine).runCalls calls = some d ∧
      d.marineDataset = marine ∧ d.wasteDataset = waste ∧
      (marine ≠ [] → d.currentMarineIndex < marine.length) ∧
      (waste ≠ [] → d.currentWasteIndex < waste.length) := by
  obtain ⟨d, hrun, hwf, hm, hw⟩ := AquaticDetector.runCalls_inBounds calls
    (AquaticDetector.construct waste marine) (AquaticDetector.construct_inBounds waste marine)
  have hm1 : d.marineDataset = marine := hm
  have hw1 : d.wasteDataset = waste := hw
  refine ⟨d, hrun, hm1, hw1, ?_, ?_⟩
  · intro hne
    have h := hwf.1 (by rw [hm1]; exact hne)
    rw [hm1] at h
    exact h
  · intro hne
    have h := hwf.2 (by rw [hw1]; exact hne)
    rw [hw1] at h
    exact h

/-- Witness for C21: two waste and three marine entries under `detect`, `captureFrame`,
`readEnvironmentalSensors`, `detect`, `detect`, `detect`. -/
theorem AquaticDetector.cursor_safety_witness :
    ∃ d, (AquaticDetector.construct [exampleBottle, exampleNet]
        [exampleTurtle, exampleSalmon, exampleCrab]).runCalls
        [DetectorCall.detect 1000 1000, DetectorCall.captureFrame true (fun _ => true),
          DetectorCall.readEnvironmentalSensors 1001 (FallbackDraws.mk 0 0 0 0 0),
          DetectorCall.detect 1002 1002, DetectorCall.detect 1003 1003,
          DetectorCall.detect 1004 1004] = some d ∧
      d.currentMarineIndex < 3 ∧ d.currentWasteIndex < 2 := by
  obtain ⟨d, hrun, _, _, hM, hW⟩ := AquaticDetector.cursor_safety
    [exampleBottle, exampleNet] [exampleTurtle, exampleSalmon, exampleCrab]
    [DetectorCall.detect 1000 1000, DetectorCall.captureFrame true (fun _ => true),
      DetectorCall.readEnvironmentalSensors 1001 (FallbackDraws.mk 0 0 0 0 0),
      DetectorCall.detect 1002 1002, DetectorCall.detect 1003 1003,
      DetectorCall.detect 1004 1004]
  exact ⟨d, hrun, hM (List.cons_ne_nil _ _), hW (List.cons_ne_nil _ _)⟩

/-! ## Battery: claim C22 -/

theorem Battery.getChargePercentage_within (b : Battery) (hcap : 0 < b.capacity)
    (hlo : 0 ≤ b.currentCharge) (hhi : b.currentCharge ≤ b.capacity) :
    0 ≤ b.getChargePercentage ∧ b.getChargePercentage ≤ 100 := by
  unfold Battery.getChargePercentage
  have h0 : 0 ≤ b.currentCharge / b.capacity := div_nonneg hlo hcap.le
  have h1 : b.currentCharge / b.capacity ≤ 1 := (div_le_one hcap).mpr hhi
  constructor
  · positivity
  · linarith

/-- C22 as stated fails: the battery `Battery(500, -1)` has capacity 500 and charge 350;
`charge(5, 1)` lowers the charge, and `charge(5, 400)` leaves it below 0, with power and
hours non-negative in both calls. -/
theorem Battery.nonneg_calls_counterexample :
    0 < (Battery.construct 500 (-1)).capacity ∧
    0 ≤ (Battery.construct 500 (-1)).currentCharge ∧
    (Battery.construct 500 (-1)).currentCharge ≤ (Battery.construct 500 (-1)).capacity ∧
    ¬ ((Battery.construct 500 (-1)).currentCharge ≤
        ((Battery.construct 500 (-1)).charge 5 1).currentCharge) ∧
    ¬ (0 ≤ ((Battery.construct 500 (-1)).charge 5 400).currentCharge) := by
  norm_num [Battery.construct, Battery.charge, stdMin]

/-- C22, amended: for a battery with `capacity > 0` and `0 ≤ currentCharge ≤ capacity`, and
arguments `power ≥ 0` and `hours ≥ 0`: when also `maxChargeRate ≥ 0`, `charge` keeps
`0 ≤ currentCharge ≤ capacity`, does not lower the charge and keeps the percentage within
`[0, 100]`; `discharge` keeps `0 ≤ currentCharge ≤ capacity`, does not raise the charge
and keeps the percentage within `[0, 100]`. -/
theorem Battery.nonneg_calls_within (b : Battery) (power hours : ℚ)
    (hcap : 0 < b.capacity) (hlo : 0 ≤ b.currentCharge) (hhi : b.currentCharge ≤ b.capacity)
    (hp : 0 ≤ power) (hh : 0 ≤ hours) :
    (0 ≤ b.maxChargeRate →
      0 ≤ (b.charge power hours).currentCharge ∧
      (b.charge power hours).currentCharge ≤ (b.charge power hours).capacity ∧
      b.currentCharge ≤ (b.charge power hours).currentCharge ∧
      0 ≤ (b.charge power hours).getChargePercentage ∧
      (b.charge power hours).getChargePercentage ≤ 100) ∧
    (0 ≤ (b.discharge power hours).2.currentCharge ∧
      (b.discharge power hours).2.currentCharge ≤ (b.discharge power hours).2.capacity ∧
      (b.discharge power hours).2.currentCharge ≤ b.currentCharge ∧
      0 ≤ (b.discharge power hours).2.getChargePercentage ∧
      (b.discharge power hours).2.getChargePercentage ≤ 100) := by
  constructor
  · intro hrate
    have he : 0 ≤ min power b.maxChargeRate * hours := mul_nonneg (le_min hp hrate) hh
    have hlo1 : 0 ≤ (b.charge power hours).currentCharge := by
      rw [Battery.charge_currentCharge]
      exact le_min (hlo.trans hhi) (add_nonneg hlo he)
    have hhi1 : (b.charge power hours).currentCharge ≤ (b.charge power hours).capacity := by
      rw [Battery.charge_currentCharge, Battery.charge_capacity]
      exact min_le_left _ _
    have hmono : b.currentCharge ≤ (b.charge power hours).currentCharge := by
      rw [Battery.charge_currentCharge]
      exact le_min hhi (le_add_of_nonneg_right he)
    have hcap1 : 0 < (b.charge power hours).capacity := hcap
    exact ⟨hlo1, hhi1, hmono,
      Battery.getChargePercentage_within (b.charge power hours) hcap1 hlo1 hhi1⟩
  · have he : 0 ≤ power * hours := mul_nonneg hp hh
    by_cases hle : power * hours ≤ b.currentCharge
    · rw [Battery.discharge_of_le b power hours hle]
      have hlo1 : 0 ≤ b.currentCharge - power * hours := sub_nonneg.mpr hle
      have hhi1 : b.currentCharge - power * hours ≤ b.capacity := by linarith
      have hmono : b.currentCharge - power * hours ≤ b.currentCharge := by linarith
      exact ⟨hlo1, hhi1, hmono,
        Battery.getChargePercentage_within
          { b with currentCharge := b.currentCharge - power * hours } hcap hlo1 hhi1⟩
    · rw [Battery.discharge_of_not_le b power hours hle]
      exact ⟨hlo, hhi, le_refl _, Battery.getChargePercentage_within b hcap hlo hhi⟩

/-- Witness for the amended C22: a battery at 400 of 500 with maximum rate 100 under
`charge(50, 1)` and `discharge(40, 1)`. -/
theorem Battery.nonneg_calls_within_witness :
    (Battery.mk 500 400 100).currentCharge ≤
        ((Battery.mk 500 400 100).charge 50 1).currentCharge ∧
    ((Battery.mk 500 400 100).charge 50 1).getChargePercentage ≤ 100 ∧
    ((Battery.mk 500 400 100).discharge 40 1).2.currentCharge ≤
        (Battery.mk 500 400 100).currentCharge ∧
    0 ≤ ((Battery.mk 500 400 100).discharge 40 1).2.currentCharge := by
  have h := Battery.nonneg_calls_within (Battery.mk 500 400 100) 50 1
    (by norm_num) (by norm_num) (by norm_num) (by norm_num) (by norm_num)
  have h2 := Battery.nonneg_calls_within (Battery.mk 500 400 100) 40 1
    (by norm_num) (by norm_num) (by norm_num) (by norm_num) (by norm_num)
  have hc := h.1 (by norm_num)
  exact ⟨hc.2.2.1, hc.2.2.2.2, h2.2.2.2.1, h2.2.1⟩

end AquaticMonitor
